import Mathlib

/-!
# StretchShop subscriptions service

Shallow embedding of `src/services/subscriptions.service.js`: the date cycle
calculator, the renewal run `runSubscriptions`, the actions `suspend`, `reactivate`,
`save` and `listSubscriptions`, and the method `prepareOrderForSubscription`.

A JavaScript `Date` object is modelled by its time value, the number of
milliseconds since the epoch in UTC, or by `invalid` when that value is `NaN` (an
Invalid Date).  The built-in getters and setters follow ECMA-262: a getter reads the
fields of `LocalTime(t)`, a setter builds the new local time with `MakeDay` and
`MakeDate` and stores `TimeClip(UTC(newDate))`.  The time zone of the process is a
parameter `zone` of every function that reads or writes the fields of a date: it
gives the offset `LocalTZA(t, isUTC)`.  A number that may be `NaN` is an
`Option Int`.

A JavaScript value that may be `undefined` is an `Option`.  Durations and cycle
counts are integers.  A handler is a function of what its calls to other services
resolve to, and its result tells which calls it makes and with what arguments.
-/

namespace StretchShop

/-! ## ECMA-262 date arithmetic -/

/-- Time value of a JavaScript `Date`: milliseconds since the epoch.  The same type
holds a local time value, `LocalTime(t)`. -/
abbrev Date := Int

/-- The value held by a `Date` object: a time value, or `NaN` for an Invalid Date. -/
inductive DateObject where
  | valid (tv : Date)
  | invalid
  deriving DecidableEq, Repr

/-- The time zone of the process: ECMA-262 `LocalTZA(t, isUTC)`, the offset of local
time from UTC in milliseconds, at the UTC time `t` when `isUTC` is true and for the
local time `t` otherwise.  For a local time that a transition skips or repeats, the
offset is that before the transition. -/
structure TimeZone where
  LocalTZA : Int → Bool → Int

/-- Milliseconds in a day. -/
def msPerDay : Int := 86400000

/-- ECMA-262 `LocalTime(t)`: from a UTC time value to local time. -/
def LocalTime (zone : TimeZone) (t : Int) : Int := t + zone.LocalTZA t true

/-- ECMA-262 `UTC(t)`: from a local time value to UTC. -/
def UTC (zone : TimeZone) (t : Int) : Int := t - zone.LocalTZA t false

/-- ECMA-262 `TimeClip(time)`: `NaN` when `abs(time) > 8.64e15`, else the time. -/
def TimeClip (time : Int) : DateObject :=
  if time < -8640000000000000 ∨ 8640000000000000 < time then .invalid else .valid time

/-- ECMA-262 `Day(t)`: the day number of a time value. -/
def Day (t : Date) : Int := t / msPerDay

/-- ECMA-262 `TimeWithinDay(t)`: milliseconds since midnight. -/
def TimeWithinDay (t : Date) : Int := t % msPerDay

/-- ECMA-262 `DaysInYear(y)`. -/
def DaysInYear (y : Int) : Int :=
  if y % 4 ≠ 0 then 365
  else if y % 100 ≠ 0 then 366
  else if y % 400 ≠ 0 then 365
  else 366

/-- ECMA-262 `DayFromYear(y)`: day number of the first day of year `y`. -/
def DayFromYear (y : Int) : Int :=
  365 * (y - 1970) + (y - 1969) / 4 - (y - 1901) / 100 + (y - 1601) / 400

/-- The largest year `y` with `DayFromYear y ≤ d`, found from the estimate
`1970 + 400 d / 146097` (exact to within one year) by one correction step. -/
def YearFromDay (d : Int) : Int :=
  let y := 1970 + (d * 400) / 146097
  if d < DayFromYear y then y - 1
  else if DayFromYear (y + 1) ≤ d then y + 1
  else y

/-- ECMA-262 `YearFromTime(t)`: the largest `y` with `TimeFromYear(y) ≤ t`. -/
def YearFromTime (t : Date) : Int := YearFromDay (Day t)

/-- ECMA-262 `InLeapYear(t)` as a function of the year: 1 in a leap year, else 0. -/
def leapOfYear (y : Int) : Int := if DaysInYear y = 366 then 1 else 0

/-- ECMA-262 `InLeapYear(t)`. -/
def InLeapYear (t : Date) : Int := leapOfYear (YearFromTime t)

/-- ECMA-262 `DayWithinYear(t)`. -/
def DayWithinYear (t : Date) : Int := Day t - DayFromYear (YearFromTime t)

/-- Number of days of a year that precede month `m` (0 = January), as in the
table of ECMA-262 `MonthFromTime`; `leap` is `InLeapYear`. -/
def daysBeforeMonth (m : Int) (leap : Int) : Int :=
  if m ≤ 0 then 0
  else if m = 1 then 31
  else if m = 2 then 59 + leap
  else if m = 3 then 90 + leap
  else if m = 4 then 120 + leap
  else if m = 5 then 151 + leap
  else if m = 6 then 181 + leap
  else if m = 7 then 212 + leap
  else if m = 8 then 243 + leap
  else if m = 9 then 273 + leap
  else if m = 10 then 304 + leap
  else if m = 11 then 334 + leap
  else 365 + leap

/-- ECMA-262 `MonthFromTime(t)`: 0 = January, ..., 11 = December. -/
def MonthFromTime (t : Date) : Int :=
  let d := DayWithinYear t
  let l := InLeapYear t
  if d < 31 then 0
  else if d < 59 + l then 1
  else if d < 90 + l then 2
  else if d < 120 + l then 3
  else if d < 151 + l then 4
  else if d < 181 + l then 5
  else if d < 212 + l then 6
  else if d < 243 + l then 7
  else if d < 273 + l then 8
  else if d < 304 + l then 9
  else if d < 334 + l then 10
  else 11

/-- ECMA-262 `DateFromTime(t)`: the day of the month, from 1. -/
def DateFromTime (t : Date) : Int :=
  DayWithinYear t - daysBeforeMonth (MonthFromTime t) (InLeapYear t) + 1

/-- ECMA-262 `MakeDay(year, month, date)` on integers: `month` is reduced modulo 12
into the year, and `date` may lie outside the month (it is added as a day offset).
A day that lies outside the range of time values is turned into `NaN` by the
`TimeClip` of the setter. -/
def MakeDay (year month date : Int) : Int :=
  let ym := year + month / 12
  let mn := month % 12
  DayFromYear ym + daysBeforeMonth mn (leapOfYear ym) + date - 1

/-- ECMA-262 `MakeDate(day, time)`. -/
def MakeDate (day time : Int) : Date := day * msPerDay + time

/-- `Date.prototype.getFullYear`: `YearFromTime(LocalTime(t))`, `NaN` on an Invalid
Date. -/
def getFullYear (zone : TimeZone) (this : DateObject) : Option Int :=
  match this with
  | .valid tv => some (YearFromTime (LocalTime zone tv))
  | .invalid => none

/-- `Date.prototype.getMonth`: `MonthFromTime(LocalTime(t))`, `NaN` on an Invalid
Date. -/
def getMonth (zone : TimeZone) (this : DateObject) : Option Int :=
  match this with
  | .valid tv => some (MonthFromTime (LocalTime zone tv))
  | .invalid => none

/-- `Date.prototype.getDate`: `DateFromTime(LocalTime(t))`, `NaN` on an Invalid
Date. -/
def getDate (zone : TimeZone) (this : DateObject) : Option Int :=
  match this with
  | .valid tv => some (DateFromTime (LocalTime zone tv))
  | .invalid => none

/-- `Date.prototype.setDate(date)`: the new value of the date object.  On an Invalid
Date, or with `NaN` for `date`, the value is `NaN`; otherwise it is
`TimeClip(UTC(newDate))` for `newDate` built from the fields of `LocalTime(t)`. -/
def setDate (zone : TimeZone) (this : DateObject) (date : Option Int) : DateObject :=
  match this, date with
  | .valid tv, some dt =>
    let t := LocalTime zone tv
    let newDate := MakeDate (MakeDay (YearFromTime t) (MonthFromTime t) dt) (TimeWithinDay t)
    TimeClip (UTC zone newDate)
  | _, _ => .invalid

/-- `Date.prototype.setMonth(month)`: the new value of the date object.  On an
Invalid Date, or with `NaN` for `month`, the value is `NaN`; otherwise it is
`TimeClip(UTC(newDate))` for `newDate` built from the fields of `LocalTime(t)`. -/
def setMonth (zone : TimeZone) (this : DateObject) (month : Option Int) : DateObject :=
  match this, month with
  | .valid tv, some m =>
    let t := LocalTime zone tv
    let newDate := MakeDate (MakeDay (YearFromTime t) m (DateFromTime t)) (TimeWithinDay t)
    TimeClip (UTC zone newDate)
  | _, _ => .invalid

/-- `Date.prototype.setFullYear(year)`: the new value of the date object.  On an
Invalid Date the fields are those of the time `+0`; with `NaN` for `year` the value
is `NaN`; otherwise it is `TimeClip(UTC(newDate))`. -/
def setFullYear (zone : TimeZone) (this : DateObject) (year : Option Int) : DateObject :=
  let t :=
    match this with
    | .valid tv => LocalTime zone tv
    | .invalid => 0
  match year with
  | some y =>
    let newDate := MakeDate (MakeDay y (MonthFromTime t) (DateFromTime t)) (TimeWithinDay t)
    TimeClip (UTC zone newDate)
  | none => .invalid

/-- Number of days of month `m` (0 = January) in year `y`. -/
def daysInMonth (y m : Int) : Int :=
  daysBeforeMonth (m + 1) (leapOfYear y) - daysBeforeMonth m (leapOfYear y)

/-- Time value of midnight UTC on the civil date `y`-`m`-`d`, with `m` from 1 as in
an ISO date (`Date.UTC(y, m - 1, d)`). -/
def civil (y m d : Int) : Date := MakeDate (MakeDay y (m - 1) d) 0

/-- The time zone UTC: the offset is zero. -/
def utc : TimeZone := { LocalTZA := fun _ _ => 0 }

/-- Milliseconds in an hour. -/
def msPerHour : Int := 3600000

/-- A time zone at UTC-5 that moves its clocks forward by one hour at the UTC time
`instant`, as America/New_York does on the second Sunday of March at 07:00 UTC: the
local times from 02:00 to 03:00 of that day are skipped and are read with the offset
before the transition. -/
def springForward (instant : Int) : TimeZone :=
  { LocalTZA := fun t isUTC =>
      if isUTC then
        if t < instant then -5 * msPerHour else -4 * msPerHour
      else
        if t < instant - 4 * msPerHour then -5 * msPerHour else -4 * msPerHour }

/-- A time zone whose offset from UTC is `offset` at every time: it has no
daylight-saving or other transition. -/
def fixedOffset (zone : TimeZone) (offset : Int) : Prop :=
  ∀ t isUTC, zone.LocalTZA t isUTC = offset

/-! ## The date cycle calculator (`methods.calculateDateOrderNext`, `methods.calculateDateEnd`) -/

/-- The comparison `a != b` of two numbers: true when either is `NaN`. -/
def numberNe (a b : Option Int) : Bool :=
  match a, b with
  | some x, some y => decide (x ≠ y)
  | _, _ => true

/-- `Date.prototype.addDays`, installed by `calculateDateOrderNext`: a fresh copy of
`this`, moved by `days` days with `setDate(getDate() + days)`; `this` is untouched. -/
def addDays (zone : TimeZone) (this : DateObject) (days : Int) : DateObject :=
  let date := this
  setDate zone date ((getDate zone date).map (· + days))

/-- The local helper `addMonths` of `calculateDateOrderNext`: `setMonth`, then
`setDate(0)` when the day of the month changed. -/
def addMonths (zone : TimeZone) (date : DateObject) (months : Int) : DateObject :=
  let d := getDate zone date
  let date := setMonth zone date ((getMonth zone date).map (· + months))
  if numberNe (getDate zone date) d then setDate zone date (some 0) else date

/-- The method `calculateDateOrderNext(period, duration, dateStart)`.  `dateStart` is
`none` when the argument is missing or `undefined`; `now` is what `new Date()`
reads.  The result is `none` when the method returns `undefined`.

In the `"day"` and `"week"` cases the source calls `dateOrderNext.addDays(..)` as a
statement: the copy it returns is dropped and `dateOrderNext` keeps its value.  The
`"week"` case then leaves through a bare `return`. -/
def calculateDateOrderNext (zone : TimeZone) (period : String) (duration : Int)
    (dateStart : Option DateObject) (now : Date) : Option DateObject :=
  let dateOrderNext := dateStart.getD (.valid now)
  if period = "day" then
    let _dropped := addDays zone dateOrderNext duration
    some dateOrderNext
  else if period = "week" then
    let _dropped := addDays zone dateOrderNext (duration * 7)
    none
  else if period = "month" then
    some (addMonths zone dateOrderNext duration)
  else
    some (setFullYear zone dateOrderNext
      ((getFullYear zone dateOrderNext).map (· + duration)))

/-- The constant `maxDuration` of `calculateDateEnd`. -/
def maxDuration : Int := 1000

/-- The `for (let i=0; i<durationMax; i++)` loop of `calculateDateEnd`, from the
loop state `(i, dateEnd)`; `fuel` bounds the number of iterations. -/
def calculateDateEndLoop (zone : TimeZone) (period : String) (duration durationMax : Int)
    (now : Date) : Nat → Int → Option DateObject → Option DateObject
  | 0, _, dateEnd => dateEnd
  | fuel + 1, i, dateEnd =>
    if i < durationMax then
      calculateDateEndLoop zone period duration durationMax now fuel (i + 1)
        (calculateDateOrderNext zone period duration dateEnd now)
    else dateEnd

/-- The method `calculateDateEnd(dateStart, period, duration, durationMax)`;
`dateStart` is the time value of the start date, which the copy
`new Date(dateStart.getTime())` holds, and `durationMax` is `none` when unset.  The
loop runs only for `0 < durationMax ≤ maxDuration`, so `maxDuration` iterations of
fuel are enough. -/
def calculateDateEnd (zone : TimeZone) (dateStart : Date) (period : String) (duration : Int)
    (durationMax : Option Int) (now : Date) : Option DateObject :=
  let dateEnd : DateObject := .valid dateStart
  match durationMax with
  | none =>
    some (setFullYear zone dateEnd ((getFullYear zone dateEnd).map (· + maxDuration)))
  | some n =>
    if n = 0 ∨ n ≤ 0 ∨ n > maxDuration then
      some (setFullYear zone dateEnd ((getFullYear zone dateEnd).map (· + maxDuration)))
    else
      calculateDateEndLoop zone period duration n now maxDuration.toNat 0 (some dateEnd)

/-! ## Subscription records and the renewal run (`actions.runSubscriptions`) -/

/-- An entry of `history`.  `data` is the optional object of the entity validator,
as key/value pairs (a value is `none` for `null`); `relatedOrder` is the property of
that name set on the entry itself, `none` when the entry has no such property. -/
structure HistoryEvent where
  action : String
  type : String
  date : Date
  data : Option (List (String × Option String))
  relatedOrder : Option String
  deriving DecidableEq, Repr

/-- The order template stored in `data.order`. -/
structure Order where
  user : String
  items : List String
  status : String
  deriving DecidableEq, Repr

/-- What `orders.create` resolves to. -/
structure OrderResult where
  _id : String
  deriving DecidableEq, Repr

/-- The `dates` object of a subscription; `dateOrderNext` is `none` when the
property holds `undefined`, and may hold an Invalid Date. -/
structure Dates where
  dateStart : Date
  dateOrderNext : Option DateObject
  dateEnd : Date
  dateCreated : Date
  dateUpdated : Date
  deriving DecidableEq, Repr

/-- The `data` object of a subscription: the subscribed product and the order
template of the renewals. -/
structure SubscriptionData where
  product : String
  order : Order
  deriving DecidableEq, Repr

/-- A subscription document, with the fields of the entity validator; `_id` is
`none` once the property is deleted. -/
structure Subscription where
  _id : Option String
  userId : String
  ip : String
  type : String
  period : String
  duration : Int
  cycles : Int
  status : String
  orderOriginId : String
  orderItemName : String
  dates : Dates
  price : Int
  data : SubscriptionData
  history : List HistoryEvent
  deriving DecidableEq, Repr

/-- The query of `runSubscriptions`: `dates.dateOrderNext ≤ today`,
`dates.dateEnd ≥ today`, `status = "active"`.  A next order date that is `undefined`
or an Invalid Date does not match. -/
def dueQuery (today : Date) (s : Subscription) : Bool :=
  (match s.dates.dateOrderNext with
    | some (.valid d) => decide (d ≤ today)
    | _ => false)
  && decide (s.dates.dateEnd ≥ today) && decide (s.status = "active")

/-- `adapter.find` with the query of `runSubscriptions`, over the stored documents. -/
def adapterFind (stored : List Subscription) (today : Date) : List Subscription :=
  stored.filter (dueQuery today)

/-- The method `prepareForUpdate`: a copy without `_id` (when it is set and truthy),
the body of the `$set`. -/
def prepareForUpdate (object : Subscription) : Subscription :=
  match object._id with
  | some id => if id ≠ "" then { object with _id := none } else object
  | none => object

/-- The callback run when `orders.create` resolves with `orderResult`: the mutation
of `subscription` before it is written back.  `now` is read by the `new Date()`
inside `calculateDateOrderNext`, which is called without a start date; `stamp` is
the `new Date()` of the history entry. -/
def onOrderResult (zone : TimeZone) (today : Date) (subscription : Subscription)
    (orderResult : OrderResult) (now stamp : Date) : Subscription :=
  let dateEnd := subscription.dates.dateEnd
  let subscription :=
    if dateEnd > today then
      { subscription with
        dates := { subscription.dates with
          dateOrderNext :=
            calculateDateOrderNext zone subscription.period subscription.duration none now } }
    else
      { subscription with status := "finished" }
  { subscription with
    history := subscription.history ++
      [{ action := "prolonged", type := "automatic", date := stamp, data := none,
         relatedOrder := some orderResult._id }] }

/-- `Promise.all`: resolves with all the values, in order, when every promise
resolves, and rejects as soon as one rejects (here with the reason of the first
rejected promise of the list). -/
def promiseAll {ε α : Type} : List (Except ε α) → Except ε (List α)
  | [] => .ok []
  | .error e :: _ => .error e
  | .ok a :: ps =>
    match promiseAll ps with
    | .ok as => .ok (a :: as)
    | .error e => .error e

/-- The handler of `runSubscriptions`.  `stored` is the collection, `ordersCreate`
the outcome of the call `orders.create` for an order, `updateById` the adapter call,
and `clock` gives the two `new Date()` readings of the callback of a record. -/
def runSubscriptions (zone : TimeZone) (stored : List Subscription) (today : Date)
    (ordersCreate : Order → Except String OrderResult)
    (updateById : Option String → Subscription → Except String Subscription)
    (clock : Subscription → Date × Date) : Except String (List Subscription) :=
  let found := adapterFind stored today
  let promises := found.map fun subscription =>
    let newOrder := subscription.data.order
    match ordersCreate newOrder with
    | .error e => .error e
    | .ok orderResult =>
      let updated := onOrderResult zone today subscription orderResult
        (clock subscription).1 (clock subscription).2
      updateById subscription._id (prepareForUpdate updated)
  promiseAll promises

/-! ## Sample data for the scenarios of the specification

The scenarios are evaluated in the time zone `utc`, where the civil dates of the
specification are the time values `civil y m d`. -/

/-- The clocks of New York around the transition of 10 March 2024, 07:00 UTC. -/
def newYorkMarch2024 : TimeZone := springForward (civil 2024 3 10 + 7 * msPerHour)

/-- The clocks of New York around the transition of 9 March 3023, 07:00 UTC, the
second Sunday of March of that year. -/
def newYorkMarch3023 : TimeZone := springForward (civil 3023 3 9 + 7 * msPerHour)

/-- A monthly active subscription with next order date 2024-05-30, for the renewal
scenarios; the period and the end date vary. -/
def scenarioRecord (period : String) (dateEnd : Date) : Subscription :=
  { _id := some "sub-1", userId := "user-1", ip := "10.0.0.1:443", type := "autorefresh",
    period := period, duration := 1, cycles := 0, status := "active",
    orderOriginId := "order-0", orderItemName := "magazine",
    dates := { dateStart := civil 2024 4 30, dateOrderNext := some (.valid (civil 2024 5 30)),
               dateEnd := dateEnd, dateCreated := civil 2024 4 30,
               dateUpdated := civil 2024 4 30 },
    price := 10,
    data := { product := "magazine",
              order := { user := "user-1", items := ["magazine"], status := "cart" } },
    history := [{ action := "created", type := "user", date := civil 2024 4 30,
                  data := some [("type", some "from order"), ("relatedOrder", some "order-0")],
                  relatedOrder := none }] }

/-- A due record of the user `user`, for the batch scenario. -/
def batchRecord (id user : String) : Subscription :=
  { scenarioRecord "month" (civil 2024 12 31) with
    _id := some id, userId := user,
    data := { product := "magazine",
              order := { user := user, items := ["magazine"], status := "cart" } } }

/-- The three due records of the batch scenario. -/
def batchStored : List Subscription :=
  [batchRecord "sub-1" "user-1", batchRecord "sub-2" "user-2", batchRecord "sub-3" "user-3"]

/-- An order service that fails for the order of `user-2` only. -/
def failSecond (order : Order) : Except String OrderResult :=
  if order.user = "user-2" then .error "orders.create failed"
  else .ok { _id := "order-of-" ++ order.user }

/-- A store whose `updateById` always succeeds and returns the written document. -/
def storeUpdate (id : Option String) (body : Subscription) : Except String Subscription :=
  .ok { body with _id := id }

/-! ## Entities of the actions `suspend`, `reactivate` and `save` -/

/-- A value of a property of `dates`: a `Date`, or a string still to be converted. -/
inductive DateValue where
  | date (t : Date)
  | text (s : String)
  deriving DecidableEq, Repr

/-- The `dates` object of an entity; a property is `none` when it is not set. -/
structure EntityDates where
  dateStart : Option DateValue
  dateOrderNext : Option DateValue
  dateEnd : Option DateValue
  dateCreated : Option DateValue
  dateUpdated : Option DateValue
  dateStopped : Option DateValue
  dateSynced : Option DateValue
  deriving DecidableEq, Repr

/-- A subscription object as the actions `suspend`, `reactivate` and `save` handle
it: the properties these actions read or write; `id`, `_id`, `dates` and `history`
are `none` when the object has no such property. -/
structure Entity where
  id : Option String
  _id : Option String
  userId : String
  orderItemName : String
  status : String
  dates : Option EntityDates
  history : Option (List HistoryEvent)
  deriving DecidableEq, Repr

/-- What a lookup resolves to: one document, as `adapter.findById` gives, or an
array of documents, as the callbacks of `subscriptions.find` in `listSubscriptions`
and in `save` expect. -/
inductive FindResult where
  | document (found : Entity)
  | documents (found : List Entity)
  deriving DecidableEq, Repr

/-- The method `newHistoryRecord(action, type, data)`; `now` is its `new Date()`.
An empty `action` or `type` is falsy and replaced by the default. -/
def newHistoryRecord (action type : String) (data : Option (List (String × Option String)))
    (now : Date) : HistoryEvent :=
  let action := if action ≠ "" then action else "created"
  let type := if type ≠ "" then type else "user"
  { action := action, type := type, date := now, data := data, relatedOrder := none }

/-- The test of the callback of `found.history.some(..)`:
`record.action == "paid" && record.data && record.data.id`, with the `id` found. -/
def paidAgreementId (record : HistoryEvent) : Option String :=
  if record.action = "paid" then
    match record.data with
    | some data =>
      match data.lookup "id" with
      | some (some id) => if id ≠ "" then some id else none
      | _ => none
    | none => none
  else none

/-- The loop `found.history.some(record => ..)`: it stops at the first record that
passes the test and leaves its `data.id` in `agreementId`; `none` is the initial
`null`. -/
def historySome : List HistoryEvent → Option String
  | [] => none
  | record :: rest =>
    match paidAgreementId record with
    | some id => some id
    | none => historySome rest

/-- The block `// get agreement ID from history`, the same in `suspend` and in
`reactivate`. -/
def agreementIdOf (history : Option (List HistoryEvent)) : Option String :=
  match history with
  | some records => if records.length > 0 then historySome records else none
  | none => none

/-- The object `result` that `suspend` and `reactivate` build and return. -/
structure ActionResult where
  success : Bool
  url : Option String
  message : String
  error : Option String
  subscription : Option Entity
  agreement : Option String
  deriving DecidableEq, Repr

/-- A call that an action makes to another action or service. -/
inductive ServiceCall where
  | paypalSuspendBillingAgreement (billingAgreementId : String)
  | paypalReactivateBillingAgreement (billingAgreementId : String)
  | subscriptionsSave (entity : Entity)
  | addToHistory (subscriptionId : Option String) (historyRecord : HistoryEvent)
  deriving DecidableEq, Repr

/-- How the promise returned by a handler settles: resolved with a result (`none`
for `undefined` or `null`), or rejected. -/
inductive Settled where
  | resolved (result : Option ActionResult)
  | rejected (reason : String)
  deriving DecidableEq, Repr

/-- What a run of `suspend` or `reactivate` does: the found document as the handler
leaves it (`none` when there is no document), the calls made, in order, and the
outcome. -/
structure ActionRun where
  found : Option Entity
  calls : List ServiceCall
  outcome : Settled
  deriving DecidableEq, Repr

/-- The readings of `new Date()` in a run of `suspend` or `reactivate`: for
`dateStopped`, for the request entry, and for the last entry (`suspended`,
`reactivated` or `error`). -/
structure ActionClock where
  stopped : Date
  request : Date
  last : Date
  deriving DecidableEq, Repr

/-- The handler of the action `suspend`, as a function of `found`, what its call
`subscriptions.find` resolves to (`none` when falsy).  That action resolves to an
array of documents, which is how `listSubscriptions` and `save` use it.  The
callback of `suspend` uses `found` as one subscription object: on an array it sets a
`status` property of the array and then throws at `found.dates.dateStopped`, since
an array has no `dates`.  `agreementService` is the outcome of the call
`orders.paypalSuspendBillingAgreement` and `saveService` that of
`subscriptions.save` (`none` when the call rejects or resolves without a document:
the handler then resolves with `null`).  A write to a property of a missing `dates`
or `history` throws a `TypeError`, which rejects the promise. -/
def suspend (found : Option FindResult) (agreementService : String → Except String String)
    (saveService : Entity → Option Entity) (clock : ActionClock) : ActionRun :=
  let result : ActionResult :=
    { success := false, url := none, message := "error", error := none,
      subscription := none, agreement := none }
  match found with
  | none => { found := none, calls := [], outcome := .resolved none }
  | some (.documents _) => { found := none, calls := [], outcome := .rejected "TypeError" }
  | some (.document found) =>
    let found := { found with status := "suspend request" }
    match found.dates with
    | none => { found := some found, calls := [], outcome := .rejected "TypeError" }
    | some dates =>
      let found := { found with
        dates := some { dates with dateStopped := some (.date clock.stopped) } }
      match found.history with
      | none => { found := some found, calls := [], outcome := .rejected "TypeError" }
      | some history =>
        let found := { found with
          history := some (history ++
            [newHistoryRecord found.status "user" (some [("relatedOrder", none)])
              clock.request]) }
        match agreementIdOf found.history with
        | some agreementId =>
          match agreementService agreementId with
          | .ok agreementResult =>
            let found := { found with
              history := found.history.map fun h => h ++
                [newHistoryRecord "suspended" "user" (some [("relatedOrder", none)])
                  clock.last] }
            let found := { found with _id := none }
            match saveService found with
            | some updated =>
              { found := some found,
                calls := [.paypalSuspendBillingAgreement agreementId, .subscriptionsSave found],
                outcome := .resolved (some { result with
                  success := true,
                  subscription := some { updated with history := none },
                  agreement := some agreementResult }) }
            | none =>
              { found := some found,
                calls := [.paypalSuspendBillingAgreement agreementId, .subscriptionsSave found],
                outcome := .resolved none }
          | .error error =>
            { found := some found,
              calls := [.paypalSuspendBillingAgreement agreementId,
                .addToHistory found._id
                  (newHistoryRecord "error" "user"
                    (some [("errorMsg", some "paypalSuspendBillingAgreement error"),
                           ("error", some error)])
                    clock.last)],
              outcome := .resolved (some { result with
                error := some "paypalSuspendBillingAgreement" }) }
        | none =>
          { found := some found,
            calls := [.addToHistory found._id
              (newHistoryRecord "error" "user"
                (some [("errorMsg", some "agreementId not found")]) clock.last)],
            outcome := .resolved (some { result with error := some "agreementId not found" }) }

/-- The object `ctx.params.updateObject` that the handler of `reactivate` reads. -/
structure UpdateObject where
  id : Option String
  deriving DecidableEq, Repr

/-- The parameters `ctx.params` of a call of `reactivate`: `subscriptionId`, the one
parameter that the action declares, and `updateObject`, `none` when the call has no
such parameter. -/
structure ReactivateParams where
  subscriptionId : String
  updateObject : Option UpdateObject
  deriving DecidableEq, Repr

/-- The handler of the action `reactivate`.  It looks the subscription up with
`this.adapter.findById(ctx.params.updateObject.id)`: when the parameters have no
`updateObject`, the read of its `id` throws a `TypeError` before any lookup and the
action rejects.  Otherwise the callback runs on what `findById` resolves to (`none`
when falsy), which it uses as one subscription object.  `agreementService` is the
outcome of the call `orders.paypalReactivateBillingAgreement` and `saveService` that
of `subscriptions.save` (`none` when the call rejects or resolves without a document:
the handler then resolves with `null`).  A write to a property of a missing `dates`
or `history` throws a `TypeError`, which rejects the promise. -/
def reactivate (params : ReactivateParams) (findById : Option String → Option Entity)
    (agreementService : String → Except String String)
    (saveService : Entity → Option Entity) (clock : ActionClock) : ActionRun :=
  let result : ActionResult :=
    { success := false, url := none, message := "error", error := none,
      subscription := none, agreement := none }
  match params.updateObject with
  | none => { found := none, calls := [], outcome := .rejected "TypeError" }
  | some updateObject =>
    match findById updateObject.id with
    | none => { found := none, calls := [], outcome := .resolved none }
    | some found =>
      let found := { found with status := "reactivate request" }
      match found.dates with
      | none => { found := some found, calls := [], outcome := .rejected "TypeError" }
      | some dates =>
        let found := { found with
          dates := some { dates with dateStopped := some (.date clock.stopped) } }
        match found.history with
        | none => { found := some found, calls := [], outcome := .rejected "TypeError" }
        | some history =>
          let found := { found with
            history := some (history ++
              [newHistoryRecord found.status "user" (some [("relatedOrder", none)])
                clock.request]) }
          match agreementIdOf found.history with
          | some agreementId =>
            match agreementService agreementId with
            | .ok agreementResult =>
              let found := { found with
                history := found.history.map fun h => h ++
                  [newHistoryRecord "reactivated" "user" (some [("relatedOrder", none)])
                    clock.last] }
              let found := { found with _id := none }
              match saveService found with
              | some updated =>
                { found := some found,
                  calls := [.paypalReactivateBillingAgreement agreementId, .subscriptionsSave found],
                  outcome := .resolved (some { result with
                    success := true,
                    subscription := some { updated with history := none },
                    agreement := some agreementResult }) }
              | none =>
                { found := some found,
                  calls := [.paypalReactivateBillingAgreement agreementId, .subscriptionsSave found],
                  outcome := .resolved none }
            | .error error =>
              { found := some found,
                calls := [.paypalReactivateBillingAgreement agreementId,
                  .addToHistory found._id
                    (newHistoryRecord "error" "user"
                      (some [("errorMsg", some "paypalReactivateBillingAgreement error"),
                             ("error", some error)])
                      clock.last)],
                outcome := .resolved (some { result with
                  error := some "paypalReactivateBillingAgreement" }) }
          | none =>
            { found := some found,
              calls := [.addToHistory found._id
                (newHistoryRecord "error" "user"
                  (some [("errorMsg", some "agreementId not found")]) clock.last)],
              outcome := .resolved (some { result with error := some "agreementId not found" }) }

/-! ## The action `save` -/

/-- A call of `save` to the storage adapter: `updateById(id, { "$set": set })` or
`insert(entity)`. -/
inductive StorageCall where
  | updateById (id : Option String) (set : Entity)
  | insert (entity : Entity)
  deriving DecidableEq, Repr

/-- The body of the loop `// convert strings to Dates` for one property: a non-blank
string becomes `new Date(string)`, read by `parse`. -/
def convertDate (parse : String → Date) (date : Option DateValue) : Option DateValue :=
  match date with
  | some (.text s) => if s ≠ "" ∧ s.trim ≠ "" then some (.date (parse s)) else some (.text s)
  | other => other

/-- The loop `Object.keys(entity.dates).forEach(..)` of `save`. -/
def convertDates (parse : String → Date) (dates : EntityDates) : EntityDates :=
  { dateStart := convertDate parse dates.dateStart,
    dateOrderNext := convertDate parse dates.dateOrderNext,
    dateEnd := convertDate parse dates.dateEnd,
    dateCreated := convertDate parse dates.dateCreated,
    dateUpdated := convertDate parse dates.dateUpdated,
    dateStopped := convertDate parse dates.dateStopped,
    dateSynced := convertDate parse dates.dateSynced }

/-- The empty object `{}` that `save` puts in a missing `dates`. -/
def emptyDates : EntityDates :=
  { dateStart := none, dateOrderNext := none, dateEnd := none, dateCreated := none,
    dateUpdated := none, dateStopped := none, dateSynced := none }

/-- The handler of `save`, up to its call to the storage adapter, which is the
result; `none` when no such call is made.  `findById` is `adapter.findById`,
`validateEntity` tells whether the validation passes, `similar` is what the lookup
of similar active subscriptions resolves to (`none` when it rejects), `now` is
`new Date()`. -/
def save (entity : Entity) (findById : Option String → Option Entity)
    (validateEntity : Entity → Bool) (similar : Option (List Entity))
    (parse : String → Date) (now : Date) : Option StorageCall :=
  match findById entity.id with
  | some _ =>
    let entity := { entity with dates := entity.dates.map (convertDates parse) }
    if validateEntity entity then
      let dates := entity.dates.getD emptyDates
      let entity := { entity with
        dates := some { dates with dateUpdated := some (.date now),
                                   dateSynced := some (.date now) } }
      let entityId := entity.id
      let entity := { entity with id := none }
      let entity := { entity with _id := none }
      some (.updateById entityId entity)
    else none
  | none =>
    if validateEntity entity then
      match similar with
      | some _ =>
        let dates := entity.dates.getD emptyDates
        let entity := { entity with dates := some (convertDates parse dates) }
        some (.insert entity)
      | none => none
    else none

/-! ## The action `listSubscriptions` -/

/-- The user of `ctx.meta.user`. -/
structure User where
  _id : String
  type : String
  deriving DecidableEq, Repr

/-- A query object, as its properties in order. -/
abbrev Query := List (String × String)

/-- The assignment `query[key] = value` to a property of a query object. -/
def setProperty : Query → String → String → Query
  | [], key, value => [(key, value)]
  | (k, v) :: rest, key, value =>
    if k = key then (key, value) :: rest else (k, v) :: setProperty rest key value

/-- The parameters of `listSubscriptions`, each optional. -/
structure ListParams where
  query : Option Query
  limit : Option Int
  offset : Option Int
  sort : Option String
  fullData : Option Bool
  deriving DecidableEq, Repr

/-- The filter that `listSubscriptions` passes to `subscriptions.find`. -/
structure Filter where
  query : Query
  limit : Int
  offset : Option Int
  sort : String
  deriving DecidableEq, Repr

/-- The handler of `listSubscriptions`, up to its call `subscriptions.find`: the
filter passed, or `none` when the caller has no user or no user id and no call is
made.  `fixStringToId` is the helper of that name. -/
def listSubscriptionsFilter (user : Option User) (params : ListParams)
    (fixStringToId : String → String) : Option Filter :=
  match user with
  | none => none
  | some user =>
    if user._id ≠ "" then
      let query : Query := []
      let limit : Int := 20
      let query := match params.query with
        | some q => q
        | none => query
      let query :=
        if user.type = "admin" ∧ params.fullData = some true then query
        else setProperty query "userId" user._id
      let offset := match params.offset with
        | some o => if o ≠ 0 ∧ o > 0 then some o else none
        | none => none
      let limit := match params.limit with
        | some l => if l ≠ 0 then l else limit
        | none => limit
      let limit := if limit > 20 then 20 else limit
      let sort := "-dates.dateCreated"
      let sort := match params.sort with
        | some s => if s ≠ "" then s else sort
        | none => sort
      match query.lookup "_id" with
      | some id =>
        if id ≠ "" ∧ id.trim ≠ "" then
          some { query := setProperty query "_id" (fixStringToId id), limit := 1,
                 offset := offset, sort := sort }
        else some { query := query, limit := limit, offset := offset, sort := sort }
      | none => some { query := query, limit := limit, offset := offset, sort := sort }
    else none

/-! ## The method `prepareOrderForSubscription`

An order holds its nested objects `dates`, `data` and `prices` by reference, and
`Object.assign({}, order)` copies the references: the copy and the order share these
three objects.  References are addresses into a heap; the own properties of an order
object are a record of values and addresses. -/

/-- An address of an object on the heap. -/
abbrev Ref := Nat

/-- The object `order.prices`, with its seven totals. -/
structure OrderPrices where
  priceTotal : Int
  priceTotalNoTax : Int
  priceItems : Int
  priceItemsNoTax : Int
  priceTaxTotal : Int
  priceDelivery : Int
  pricePayment : Int
  deriving DecidableEq, Repr

/-- The object `order.dates`; `none` is `null`. -/
structure OrderDates where
  dateCreated : Option Date
  datePaid : Option Date
  emailSent : Option Date
  deriving DecidableEq, Repr

/-- The object `order.data.paymentData`; a property is `none` when it is not set. -/
structure PaymentData where
  paymentRequestId : Option String
  lastStatus : Option String
  lastDate : Option Date
  paidAmountTotal : Option Int
  lastResponseResult : List String
  deriving DecidableEq, Repr

/-- The object `order.data.subscription`. -/
structure OrderSubscription where
  created : Date
  ids : List (String × String)
  deriving DecidableEq, Repr

/-- The object `order.data`. -/
structure OrderData where
  paymentData : PaymentData
  subscription : Option OrderSubscription
  deriving DecidableEq, Repr

/-- A line item of an order. -/
structure Item where
  _id : String
  name : String
  type : String
  price : Int
  deriving DecidableEq, Repr

/-- The own properties of an order object; `dates`, `data` and `prices` are the
addresses of the nested objects. -/
structure OrderObject where
  _id : Option String
  externalId : Option String
  externalCode : Option String
  status : String
  invoice : Option String
  items : List Item
  dates : Ref
  data : Ref
  prices : Ref
  deriving DecidableEq, Repr

/-- The heap: the objects `dates`, `data` and `prices` at each address. -/
structure Heap where
  dates : Ref → OrderDates
  data : Ref → OrderData
  prices : Ref → OrderPrices

/-- `Object.assign({}, order)`: a new object with the own properties of `order`,
nested objects by reference. -/
def objectAssign (order : OrderObject) : OrderObject := order

/-- The method `prepareOrderForSubscription(order, item)`, from the heap before the
call: the heap after the call and the object returned.  `item` is `none` when the
argument is missing or `null`; `now` is `new Date()`. -/
def prepareOrderForSubscription (heap : Heap) (order : OrderObject) (item : Option Item)
    (now : Date) : Heap × OrderObject :=
  let subscriptionOrder := objectAssign order
  let subscriptionOrder := { subscriptionOrder with _id := none }
  let subscriptionOrder := { subscriptionOrder with externalId := none }
  let subscriptionOrder := { subscriptionOrder with externalCode := none }
  let heap := { heap with
    dates := Function.update heap.dates subscriptionOrder.dates
      { heap.dates subscriptionOrder.dates with datePaid := none } }
  let heap := { heap with
    dates := Function.update heap.dates subscriptionOrder.dates
      { heap.dates subscriptionOrder.dates with emailSent := none } }
  let subscriptionOrder := { subscriptionOrder with status := "cart" }
  let heap := { heap with
    data := Function.update heap.data subscriptionOrder.data
      { heap.data subscriptionOrder.data with
        paymentData := { (heap.data subscriptionOrder.data).paymentData with
          paymentRequestId := none, lastStatus := none, lastDate := none,
          paidAmountTotal := none, lastResponseResult := [] } } }
  let subscriptionOrder := { subscriptionOrder with invoice := none }
  let heap := { heap with
    prices := Function.update heap.prices subscriptionOrder.prices
      { priceTotal := 0, priceTotalNoTax := 0, priceItems := 0, priceItemsNoTax := 0,
        priceTaxTotal := 0, priceDelivery := 0, pricePayment := 0 } }
  let heap :=
    match (heap.data subscriptionOrder.data).subscription with
    | some _ => heap
    | none => { heap with
        data := Function.update heap.data subscriptionOrder.data
          { heap.data subscriptionOrder.data with
            subscription := some { created := now, ids := [] } } }
  let subscriptionOrder := { subscriptionOrder with items := [] }
  let subscriptionOrder :=
    match item with
    | some item => { subscriptionOrder with items := subscriptionOrder.items ++ [item] }
    | none => subscriptionOrder
  (heap, subscriptionOrder)

/-! ## Sample data for the actions -/

/-- A `paid` history entry that carries the billing agreement `id`. -/
def paidEvent (id : String) (date : Date) : HistoryEvent :=
  { action := "paid", type := "user", date := date,
    data := some [("id", some id)], relatedOrder := none }

/-- A stored subscription with the given status, paid twice, under the agreement
`I-FIRST` and then under `I-LAST`. -/
def paidTwice (status : String) : Entity :=
  { id := none, _id := some "sub-1", userId := "user-1", orderItemName := "magazine",
    status := status,
    dates := some { emptyDates with dateStart := some (.date (civil 2024 4 30)) },
    history := some [paidEvent "I-FIRST" (civil 2024 4 30), paidEvent "I-LAST" (civil 2024 5 30)] }

/-- A store whose `findById` resolves the identifier `sub-1` to `stored`. -/
def findSub1 (stored : Entity) (id : Option String) : Option Entity :=
  if id = some "sub-1" then some stored else none

/-- A billing-agreement service whose calls succeed. -/
def agreementOk (billingAgreementId : String) : Except String String :=
  .ok ("done " ++ billingAgreementId)

/-- A `subscriptions.save` that resolves with the entity it was given. -/
def saveOk (entity : Entity) : Option Entity := some entity

/-- The readings of the clock on 2024-06-01. -/
def juneClock : ActionClock :=
  { stopped := civil 2024 6 1, request := civil 2024 6 1, last := civil 2024 6 1 }

/-- An entity to save that carries its own `id` and `_id`. -/
def entityWithIds : Entity :=
  { id := some "sub-9", _id := some "sub-9", userId := "user-1", orderItemName := "magazine",
    status := "active",
    dates := some { emptyDates with dateStart := some (.date (civil 2024 4 30)) },
    history := some [] }

/-- A paid order: own properties, with the nested objects at the addresses 1, 2, 3. -/
def paidOrder : OrderObject :=
  { _id := some "order-0", externalId := some "ext-0", externalCode := some "code-0",
    status := "paid", invoice := some "invoice-0.pdf",
    items := [{ _id := "item-1", name := "magazine", type := "subscription", price := 100 },
              { _id := "item-2", name := "book", type := "product", price := 20 }],
    dates := 1, data := 2, prices := 3 }

/-- A heap that holds the nested objects of `paidOrder`. -/
def paidHeap : Heap :=
  { dates := fun _ => { dateCreated := some (civil 2024 4 30), datePaid := some (civil 2024 4 30),
                        emailSent := some (civil 2024 4 30) },
    data := fun _ => { paymentData := { paymentRequestId := some "pay-1",
                                         lastStatus := some "approved",
                                         lastDate := some (civil 2024 4 30),
                                         paidAmountTotal := some 120,
                                         lastResponseResult := ["approved"] },
                       subscription := none },
    prices := fun _ => { priceTotal := 120, priceTotalNoTax := 100, priceItems := 120,
                         priceItemsNoTax := 100, priceTaxTotal := 20, priceDelivery := 0,
                         pricePayment := 0 } }

/-! ## Calendar lemmas -/

theorem DayFromYear_succ (y : Int) : DayFromYear (y + 1) = DayFromYear y + DaysInYear y := by
  unfold DayFromYear DaysInYear
  split_ifs <;> omega

theorem DaysInYear_cases (y : Int) : DaysInYear y = 365 ∨ DaysInYear y = 366 := by
  unfold DaysInYear
  split_ifs <;> simp

theorem DayFromYear_mono {y z : Int} (h : y ≤ z) : DayFromYear y ≤ DayFromYear z := by
  refine Int.le_induction (P := fun z => DayFromYear y ≤ DayFromYear z) (le_refl _) ?_ z h
  intro n _ ih
  show DayFromYear y ≤ DayFromYear (n + 1)
  rw [DayFromYear_succ]
  rcases DaysInYear_cases n with h | h <;> omega

theorem YearFromDay_lower (d : Int) : DayFromYear (YearFromDay d) ≤ d := by
  unfold YearFromDay
  simp only
  split_ifs with h1 h2
  · unfold DayFromYear at *; omega
  · unfold DayFromYear at *; omega
  · omega

theorem YearFromDay_upper (d : Int) : d < DayFromYear (YearFromDay d + 1) := by
  unfold YearFromDay
  simp only
  split_ifs with h1 h2
  · simpa using h1
  · unfold DayFromYear at *; omega
  · omega

theorem YearFromDay_unique (d y : Int) (h1 : DayFromYear y ≤ d) (h2 : d < DayFromYear (y + 1)) :
    YearFromDay d = y := by
  have h3 := YearFromDay_lower d
  have h4 := YearFromDay_upper d
  rcases lt_trichotomy (YearFromDay d) y with h | h | h
  · have := DayFromYear_mono (show YearFromDay d + 1 ≤ y by omega)
    omega
  · exact h
  · have := DayFromYear_mono (show y + 1 ≤ YearFromDay d by omega)
    omega

theorem leapOfYear_cases (y : Int) :
    (leapOfYear y = 0 ∧ DaysInYear y = 365) ∨ (leapOfYear y = 1 ∧ DaysInYear y = 366) := by
  unfold leapOfYear
  rcases DaysInYear_cases y with h | h <;> simp [h]

theorem Day_MakeDate (day time : Int) (h0 : 0 ≤ time) (h1 : time < msPerDay) :
    Day (MakeDate day time) = day := by
  unfold Day MakeDate msPerDay at *
  omega

theorem TimeWithinDay_MakeDate (day time : Int) (h0 : 0 ≤ time) (h1 : time < msPerDay) :
    TimeWithinDay (MakeDate day time) = time := by
  unfold TimeWithinDay MakeDate msPerDay at *
  omega

theorem TimeWithinDay_nonneg (t : Date) : 0 ≤ TimeWithinDay t := by
  unfold TimeWithinDay msPerDay; omega

theorem TimeWithinDay_lt (t : Date) : TimeWithinDay t < msPerDay := by
  unfold TimeWithinDay msPerDay; omega

theorem MakeDate_Day_TimeWithinDay (t : Date) : MakeDate (Day t) (TimeWithinDay t) = t := by
  unfold MakeDate Day TimeWithinDay msPerDay
  show @Eq Int (t / 86400000 * 86400000 + t % 86400000) t
  omega

theorem month_cases (m : Int) (hm0 : 0 ≤ m) (hm1 : m < 12) :
    m = 0 ∨ m = 1 ∨ m = 2 ∨ m = 3 ∨ m = 4 ∨ m = 5 ∨ m = 6 ∨ m = 7 ∨ m = 8 ∨ m = 9 ∨
    m = 10 ∨ m = 11 := by omega

/-- The month offsets, month by month. -/
theorem daysBeforeMonth_table (l : Int) :
    daysBeforeMonth 0 l = 0 ∧ daysBeforeMonth 1 l = 31 ∧ daysBeforeMonth 2 l = 59 + l ∧
    daysBeforeMonth 3 l = 90 + l ∧ daysBeforeMonth 4 l = 120 + l ∧
    daysBeforeMonth 5 l = 151 + l ∧ daysBeforeMonth 6 l = 181 + l ∧
    daysBeforeMonth 7 l = 212 + l ∧ daysBeforeMonth 8 l = 243 + l ∧
    daysBeforeMonth 9 l = 273 + l ∧ daysBeforeMonth 10 l = 304 + l ∧
    daysBeforeMonth 11 l = 334 + l ∧ daysBeforeMonth 12 l = 365 + l := by
  refine ⟨?_, ?_, ?_, ?_, ?_, ?_, ?_, ?_, ?_, ?_, ?_, ?_, ?_⟩ <;> simp [daysBeforeMonth]

theorem InLeapYear_cases (t : Date) : InLeapYear t = 0 ∨ InLeapYear t = 1 := by
  unfold InLeapYear leapOfYear; split_ifs <;> simp

/-- The table lookup of `MonthFromTime` returns the month whose offsets bracket the
day within the year. -/
theorem MonthFromTime_unique (t : Date) (m : Int) (hm0 : 0 ≤ m) (hm1 : m < 12)
    (h0 : daysBeforeMonth m (InLeapYear t) ≤ DayWithinYear t)
    (h1 : DayWithinYear t < daysBeforeMonth (m + 1) (InLeapYear t)) :
    MonthFromTime t = m := by
  unfold MonthFromTime
  simp only
  have hl := InLeapYear_cases t
  obtain ⟨t0, t1, t2, t3, t4, t5, t6, t7, t8, t9, t10, t11, t12⟩ :=
    daysBeforeMonth_table (InLeapYear t)
  generalize DayWithinYear t = w at *
  generalize InLeapYear t = l at *
  rcases month_cases m hm0 hm1 with h | h | h | h | h | h | h | h | h | h | h | h <;>
    (subst h
     norm_num at h1
     simp only [t0, t1, t2, t3, t4, t5, t6, t7, t8, t9, t10, t11, t12] at h0 h1
     clear t0 t1 t2 t3 t4 t5 t6 t7 t8 t9 t10 t11 t12
     try rw [if_neg (show ¬ w < 31 by omega)]
     try rw [if_neg (show ¬ w < 59 + l by omega)]
     try rw [if_neg (show ¬ w < 90 + l by omega)]
     try rw [if_neg (show ¬ w < 120 + l by omega)]
     try rw [if_neg (show ¬ w < 151 + l by omega)]
     try rw [if_neg (show ¬ w < 181 + l by omega)]
     try rw [if_neg (show ¬ w < 212 + l by omega)]
     try rw [if_neg (show ¬ w < 243 + l by omega)]
     try rw [if_neg (show ¬ w < 273 + l by omega)]
     try rw [if_neg (show ¬ w < 304 + l by omega)]
     try rw [if_neg (show ¬ w < 334 + l by omega)]
     try rw [if_pos (show w < 31 by omega)]
     try rw [if_pos (show w < 59 + l by omega)]
     try rw [if_pos (show w < 90 + l by omega)]
     try rw [if_pos (show w < 120 + l by omega)]
     try rw [if_pos (show w < 151 + l by omega)]
     try rw [if_pos (show w < 181 + l by omega)]
     try rw [if_pos (show w < 212 + l by omega)]
     try rw [if_pos (show w < 243 + l by omega)]
     try rw [if_pos (show w < 273 + l by omega)]
     try rw [if_pos (show w < 304 + l by omega)]
     try rw [if_pos (show w < 334 + l by omega)])

/-- The month found by `MonthFromTime` is in `0..11` and its offsets bracket the day
within the year. -/
theorem MonthFromTime_spec (t : Date) (hw0 : 0 ≤ DayWithinYear t)
    (hw1 : DayWithinYear t < 365 + InLeapYear t) :
    0 ≤ MonthFromTime t ∧ MonthFromTime t < 12 ∧
    daysBeforeMonth (MonthFromTime t) (InLeapYear t) ≤ DayWithinYear t ∧
    DayWithinYear t < daysBeforeMonth (MonthFromTime t + 1) (InLeapYear t) := by
  generalize hM : MonthFromTime t = M
  unfold MonthFromTime at hM
  simp only at hM
  have hl := InLeapYear_cases t
  obtain ⟨t0, t1, t2, t3, t4, t5, t6, t7, t8, t9, t10, t11, t12⟩ :=
    daysBeforeMonth_table (InLeapYear t)
  generalize DayWithinYear t = w at *
  generalize InLeapYear t = l at *
  by_cases c0 : w < 31
  · rw [if_pos c0] at hM; subst hM; norm_num; rw [t0, t1]
    clear t0 t1 t2 t3 t4 t5 t6 t7 t8 t9 t10 t11 t12; omega
  rw [if_neg c0] at hM
  by_cases c1 : w < 59 + l
  · rw [if_pos c1] at hM; subst hM; norm_num; rw [t1, t2]
    clear t0 t1 t2 t3 t4 t5 t6 t7 t8 t9 t10 t11 t12; omega
  rw [if_neg c1] at hM
  by_cases c2 : w < 90 + l
  · rw [if_pos c2] at hM; subst hM; norm_num; rw [t2, t3]
    clear t0 t1 t2 t3 t4 t5 t6 t7 t8 t9 t10 t11 t12; omega
  rw [if_neg c2] at hM
  by_cases c3 : w < 120 + l
  · rw [if_pos c3] at hM; subst hM; norm_num; rw [t3, t4]
    clear t0 t1 t2 t3 t4 t5 t6 t7 t8 t9 t10 t11 t12; omega
  rw [if_neg c3] at hM
  by_cases c4 : w < 151 + l
  · rw [if_pos c4] at hM; subst hM; norm_num; rw [t4, t5]
    clear t0 t1 t2 t3 t4 t5 t6 t7 t8 t9 t10 t11 t12; omega
  rw [if_neg c4] at hM
  by_cases c5 : w < 181 + l
  · rw [if_pos c5] at hM; subst hM; norm_num; rw [t5, t6]
    clear t0 t1 t2 t3 t4 t5 t6 t7 t8 t9 t10 t11 t12; omega
  rw [if_neg c5] at hM
  by_cases c6 : w < 212 + l
  · rw [if_pos c6] at hM; subst hM; norm_num; rw [t6, t7]
    clear t0 t1 t2 t3 t4 t5 t6 t7 t8 t9 t10 t11 t12; omega
  rw [if_neg c6] at hM
  by_cases c7 : w < 243 + l
  · rw [if_pos c7] at hM; subst hM; norm_num; rw [t7, t8]
    clear t0 t1 t2 t3 t4 t5 t6 t7 t8 t9 t10 t11 t12; omega
  rw [if_neg c7] at hM
  by_cases c8 : w < 273 + l
  · rw [if_pos c8] at hM; subst hM; norm_num; rw [t8, t9]
    clear t0 t1 t2 t3 t4 t5 t6 t7 t8 t9 t10 t11 t12; omega
  rw [if_neg c8] at hM
  by_cases c9 : w < 304 + l
  · rw [if_pos c9] at hM; subst hM; norm_num; rw [t9, t10]
    clear t0 t1 t2 t3 t4 t5 t6 t7 t8 t9 t10 t11 t12; omega
  rw [if_neg c9] at hM
  by_cases c10 : w < 334 + l
  · rw [if_pos c10] at hM; subst hM; norm_num; rw [t10, t11]
    clear t0 t1 t2 t3 t4 t5 t6 t7 t8 t9 t10 t11 t12; omega
  rw [if_neg c10] at hM
  subst hM; norm_num; rw [t11, t12]; clear t0 t1 t2 t3 t4 t5 t6 t7 t8 t9 t10 t11 t12; omega

theorem DayWithinYear_nonneg (t : Date) : 0 ≤ DayWithinYear t := by
  have h := YearFromDay_lower (Day t)
  unfold DayWithinYear YearFromTime
  omega

theorem DayWithinYear_lt (t : Date) : DayWithinYear t < 365 + InLeapYear t := by
  have h := YearFromDay_upper (Day t)
  rw [DayFromYear_succ] at h
  unfold DayWithinYear InLeapYear YearFromTime
  rcases leapOfYear_cases (YearFromDay (Day t)) with ⟨h1, h2⟩ | ⟨h1, h2⟩ <;> omega

/-- The first day of month `m + 1` comes `daysInMonth y m` days after that of `m`. -/
theorem daysBeforeMonth_succ (y m : Int) :
    daysBeforeMonth (m + 1) (leapOfYear y) = daysBeforeMonth m (leapOfYear y) + daysInMonth y m := by
  unfold daysInMonth; ring

/-- Every month has between 28 and 31 days. -/
theorem daysInMonth_bounds (y m : Int) (hm0 : 0 ≤ m) (hm1 : m < 12) :
    28 ≤ daysInMonth y m ∧ daysInMonth y m ≤ 31 := by
  obtain ⟨t0, t1, t2, t3, t4, t5, t6, t7, t8, t9, t10, t11, t12⟩ :=
    daysBeforeMonth_table (leapOfYear y)
  unfold daysInMonth
  rcases leapOfYear_cases y with ⟨h, _⟩ | ⟨h, _⟩ <;>
  rcases month_cases m hm0 hm1 with h | h | h | h | h | h | h | h | h | h | h | h <;>
    subst h <;> norm_num <;>
    simp only [t0, t1, t2, t3, t4, t5, t6, t7, t8, t9, t10, t11, t12] <;>
    clear t0 t1 t2 t3 t4 t5 t6 t7 t8 t9 t10 t11 t12 <;> omega

/-- December has 31 days. -/
theorem daysInMonth_december (y : Int) : daysInMonth y 11 = 31 := by
  obtain ⟨t0, t1, t2, t3, t4, t5, t6, t7, t8, t9, t10, t11, t12⟩ :=
    daysBeforeMonth_table (leapOfYear y)
  unfold daysInMonth
  norm_num
  rw [t11, t12]; ring

/-- The offset of a month in `0..11` lies within the year. -/
theorem daysBeforeMonth_bounds (y m : Int) (hm0 : 0 ≤ m) (hm1 : m < 12) :
    0 ≤ daysBeforeMonth m (leapOfYear y) ∧
    daysBeforeMonth (m + 1) (leapOfYear y) ≤ DaysInYear y := by
  obtain ⟨t0, t1, t2, t3, t4, t5, t6, t7, t8, t9, t10, t11, t12⟩ :=
    daysBeforeMonth_table (leapOfYear y)
  rcases leapOfYear_cases y with ⟨h, h2⟩ | ⟨h, h2⟩ <;>
  rcases month_cases m hm0 hm1 with h | h | h | h | h | h | h | h | h | h | h | h <;>
    subst h <;> norm_num <;>
    simp only [t0, t1, t2, t3, t4, t5, t6, t7, t8, t9, t10, t11, t12] <;>
    clear t0 t1 t2 t3 t4 t5 t6 t7 t8 t9 t10 t11 t12 <;> omega

/-- A day number written as year start + month offset + day of month, with the
month and day in range, has exactly that year, month and day. -/
theorem fields_of_civil (t : Date) (y m dd : Int) (hm0 : 0 ≤ m) (hm1 : m < 12)
    (hd0 : 1 ≤ dd) (hd1 : dd ≤ daysInMonth y m)
    (hday : Day t = DayFromYear y + daysBeforeMonth m (leapOfYear y) + dd - 1) :
    YearFromTime t = y ∧ MonthFromTime t = m ∧ DateFromTime t = dd := by
  have hb := daysBeforeMonth_bounds y m hm0 hm1
  have hs := daysBeforeMonth_succ y m
  have hy : YearFromTime t = y := by
    unfold YearFromTime
    apply YearFromDay_unique
    · rw [hday]; omega
    · rw [hday, DayFromYear_succ]; omega
  have hw : DayWithinYear t = daysBeforeMonth m (leapOfYear y) + dd - 1 := by
    unfold DayWithinYear
    rw [hy, hday]; ring
  have hl : InLeapYear t = leapOfYear y := by unfold InLeapYear; rw [hy]
  have hmm : MonthFromTime t = m := by
    apply MonthFromTime_unique t m hm0 hm1
    · rw [hw, hl]; omega
    · rw [hw, hl]; omega
  refine ⟨hy, hmm, ?_⟩
  unfold DateFromTime
  rw [hmm, hl, hw]; ring

/-- Every time value decomposes into a year, a month in `0..11` and a day of that
month. -/
theorem civil_of_fields (t : Date) :
    0 ≤ MonthFromTime t ∧ MonthFromTime t < 12 ∧ 1 ≤ DateFromTime t ∧
    DateFromTime t ≤ daysInMonth (YearFromTime t) (MonthFromTime t) ∧
    Day t = DayFromYear (YearFromTime t)
      + daysBeforeMonth (MonthFromTime t) (leapOfYear (YearFromTime t)) + DateFromTime t - 1 := by
  obtain ⟨h1, h2, h3, h4⟩ := MonthFromTime_spec t (DayWithinYear_nonneg t) (DayWithinYear_lt t)
  have hl : InLeapYear t = leapOfYear (YearFromTime t) := rfl
  have hw : DayWithinYear t = Day t - DayFromYear (YearFromTime t) := rfl
  rw [hl] at h3 h4
  refine ⟨h1, h2, ?_, ?_, ?_⟩
  · unfold DateFromTime; rw [hl]; omega
  · unfold DateFromTime daysInMonth; rw [hl]; omega
  · unfold DateFromTime; rw [hl, hw]; ring

/-- `MakeDay` for a month index already in `0..11`. -/
theorem MakeDay_of_month (y m dd : Int) (hm0 : 0 ≤ m) (hm1 : m < 12) :
    MakeDay y m dd = DayFromYear y + daysBeforeMonth m (leapOfYear y) + dd - 1 := by
  unfold MakeDay
  have h1 : m / 12 = 0 := by omega
  have h2 : m % 12 = m := by omega
  simp only [h1, h2, add_zero]

/-- The day number that `MakeDay` takes as the start of the month is that of the
first day of month `month mod 12` of year `year + ⌊month / 12⌋`, as ECMA-262 asks. -/
theorem MakeDay_first_of_month (year month : Int) :
    YearFromTime (MakeDate (MakeDay year month 1) 0) = year + month / 12 ∧
    MonthFromTime (MakeDate (MakeDay year month 1) 0) = month % 12 ∧
    DateFromTime (MakeDate (MakeDay year month 1) 0) = 1 := by
  have hb := daysInMonth_bounds (year + month / 12) (month % 12) (by omega) (by omega)
  apply fields_of_civil _ _ _ _ (by omega) (by omega) (le_refl 1) (by omega)
  rw [Day_MakeDate _ _ (le_refl 0) (by decide)]
  rfl

/-- A day of month that overshoots the month by at most 28 days lands in the next
month of the same year. -/
theorem fields_of_overflow (t : Date) (y m dd : Int) (hm0 : 0 ≤ m) (hm1 : m < 11)
    (hd0 : daysInMonth y m < dd) (hd1 : dd ≤ daysInMonth y m + 28)
    (hday : Day t = DayFromYear y + daysBeforeMonth m (leapOfYear y) + dd - 1) :
    YearFromTime t = y ∧ MonthFromTime t = m + 1 ∧ DateFromTime t = dd - daysInMonth y m := by
  have hs := daysBeforeMonth_succ y m
  have hb := daysInMonth_bounds y (m + 1) (by omega) (by omega)
  apply fields_of_civil t y (m + 1) (dd - daysInMonth y m) (by omega) (by omega)
  · omega
  · omega
  · rw [hday, hs]; ring

/-- The new local time that a setter builds from a day number and the time of day of
`t` lies on that day, at the time of day of `t`. -/
theorem newDate_day (day : Int) (t : Date) :
    Day (MakeDate day (TimeWithinDay t)) = day ∧
    TimeWithinDay (MakeDate day (TimeWithinDay t)) = TimeWithinDay t :=
  ⟨Day_MakeDate _ _ (TimeWithinDay_nonneg t) (TimeWithinDay_lt t),
    TimeWithinDay_MakeDate _ _ (TimeWithinDay_nonneg t) (TimeWithinDay_lt t)⟩

/-- The day that `addDays` hands to `MakeDate`, for the local time `t`: exactly `n`
calendar days after the day of `t`. -/
theorem addDays_local (t : Date) (n : Int) :
    MakeDay (YearFromTime t) (MonthFromTime t) (DateFromTime t + n) = Day t + n := by
  obtain ⟨hm0, hm1, _, _, hday⟩ := civil_of_fields t
  rw [MakeDay_of_month _ _ _ hm0 hm1, hday]
  ring

/-- The two steps of `addMonths` on local times.  `t1` is the local time that
`setMonth` builds from `t`: it lies in the target year, and in the target month with
the day of `t` when that month has such a day.  Otherwise its day of the month
differs from that of `t`, and the local time `t2` that `setDate(0)` builds from `t1`
is the last day of the target month. -/
theorem addMonths_local (t : Date) (k : Int) (t1 : Date)
    (h1 : Day t1 = MakeDay (YearFromTime t) (MonthFromTime t + k) (DateFromTime t)) :
    YearFromTime t1 = YearFromTime t + (MonthFromTime t + k) / 12 ∧
    (DateFromTime t ≤
        daysInMonth (YearFromTime t + (MonthFromTime t + k) / 12) ((MonthFromTime t + k) % 12) →
      MonthFromTime t1 = (MonthFromTime t + k) % 12 ∧ DateFromTime t1 = DateFromTime t) ∧
    (daysInMonth (YearFromTime t + (MonthFromTime t + k) / 12) ((MonthFromTime t + k) % 12)
        < DateFromTime t →
      DateFromTime t1 ≠ DateFromTime t ∧
      ∀ t2 : Date, Day t2 = MakeDay (YearFromTime t1) (MonthFromTime t1) 0 →
        YearFromTime t2 = YearFromTime t + (MonthFromTime t + k) / 12 ∧
        MonthFromTime t2 = (MonthFromTime t + k) % 12 ∧
        DateFromTime t2 =
          daysInMonth (YearFromTime t + (MonthFromTime t + k) / 12)
            ((MonthFromTime t + k) % 12)) := by
  obtain ⟨_, _, hd0, hd1, _⟩ := civil_of_fields t
  have hdb := daysInMonth_bounds (YearFromTime t) (MonthFromTime t) (by omega) (by omega)
  unfold MakeDay at h1
  simp only at h1
  generalize hym : YearFromTime t + (MonthFromTime t + k) / 12 = ym at *
  generalize hmn : (MonthFromTime t + k) % 12 = mn at *
  have hmn0 : 0 ≤ mn := by omega
  have hmn1 : mn < 12 := by omega
  have hb := daysInMonth_bounds ym mn hmn0 hmn1
  by_cases hc : DateFromTime t ≤ daysInMonth ym mn
  · obtain ⟨f1, f2, f3⟩ := fields_of_civil t1 ym mn (DateFromTime t) hmn0 hmn1 hd0 hc h1
    exact ⟨f1, fun _ => ⟨f2, f3⟩, fun h => absurd hc (not_le.mpr h)⟩
  · have hmn2 : mn < 11 := by
      by_contra hcon
      have : mn = 11 := by omega
      subst this
      rw [daysInMonth_december] at hc
      omega
    obtain ⟨f1, f2, f3⟩ := fields_of_overflow t1 ym mn (DateFromTime t) hmn0 hmn2
      (by omega) (by omega) h1
    refine ⟨f1, fun h => absurd h hc, fun _ => ⟨by rw [f3]; omega, ?_⟩⟩
    intro t2 g1
    rw [f1, f2, MakeDay_of_month _ _ _ (by omega) (by omega), daysBeforeMonth_succ] at g1
    exact fields_of_civil t2 ym mn (daysInMonth ym mn) hmn0 hmn1 (by omega) (le_refl _)
      (by rw [g1]; ring)

/-- Only February changes its length from year to year, between 28 and 29 days. -/
theorem daysInMonth_year (y Y m : Int) (hm0 : 0 ≤ m) (hm1 : m < 12)
    (h : daysInMonth y m ≠ daysInMonth Y m) :
    m = 1 ∧ 28 ≤ daysInMonth Y 1 ∧ daysInMonth y 1 ≤ 29 := by
  obtain ⟨t0, t1, t2, t3, t4, t5, t6, t7, t8, t9, t10, t11, t12⟩ :=
    daysBeforeMonth_table (leapOfYear y)
  obtain ⟨s0, s1, s2, s3, s4, s5, s6, s7, s8, s9, s10, s11, s12⟩ :=
    daysBeforeMonth_table (leapOfYear Y)
  have e1 : daysInMonth y 1 = 28 + leapOfYear y := by
    unfold daysInMonth; norm_num; rw [t1, t2]; ring
  have e2 : daysInMonth Y 1 = 28 + leapOfYear Y := by
    unfold daysInMonth; norm_num; rw [s1, s2]; ring
  have hm : m = 1 := by
    by_contra hne
    apply h
    unfold daysInMonth
    rcases month_cases m hm0 hm1 with h' | h' | h' | h' | h' | h' | h' | h' | h' | h' | h' | h' <;>
      subst h' <;> norm_num <;>
      simp only [t0, t1, t2, t3, t4, t5, t6, t7, t8, t9, t10, t11, t12,
        s0, s1, s2, s3, s4, s5, s6, s7, s8, s9, s10, s11, s12] <;> ring_nf
    exact absurd rfl hne
  clear t0 t1 t2 t3 t4 t5 t6 t7 t8 t9 t10 t11 t12 s0 s1 s2 s3 s4 s5 s6 s7 s8 s9 s10 s11 s12
  refine ⟨hm, ?_, ?_⟩
  · rcases leapOfYear_cases Y with ⟨hY, _⟩ | ⟨hY, _⟩ <;> omega
  · rcases leapOfYear_cases y with ⟨hy, _⟩ | ⟨hy, _⟩ <;> omega

/-- The local time `r` that `setFullYear(Y)` builds from the local time `t`: the
year is `Y`; the month and the day are kept, except that 29 February becomes 1 March
when the year `Y` has no such day. -/
theorem setFullYear_local (t : Date) (Y : Int) (r : Date)
    (h1 : Day r = MakeDay Y (MonthFromTime t) (DateFromTime t)) :
    YearFromTime r = Y ∧
    (DateFromTime t ≤ daysInMonth Y (MonthFromTime t) →
      MonthFromTime r = MonthFromTime t ∧ DateFromTime r = DateFromTime t) ∧
    (daysInMonth Y (MonthFromTime t) < DateFromTime t →
      MonthFromTime t = 1 ∧ DateFromTime t = 29 ∧ MonthFromTime r = 2 ∧ DateFromTime r = 1) := by
  obtain ⟨hm0, hm1, hd0, hd1, _⟩ := civil_of_fields t
  rw [MakeDay_of_month _ _ _ hm0 hm1] at h1
  by_cases hc : DateFromTime t ≤ daysInMonth Y (MonthFromTime t)
  · obtain ⟨f1, f2, f3⟩ := fields_of_civil r Y (MonthFromTime t) (DateFromTime t) hm0 hm1 hd0 hc h1
    exact ⟨f1, fun _ => ⟨f2, f3⟩, fun h => absurd hc (not_le.mpr h)⟩
  · obtain ⟨k1, k2, k3⟩ := daysInMonth_year (YearFromTime t) Y (MonthFromTime t) hm0 hm1
      (by omega)
    have hc' := hc
    rw [k1] at hc' hd1 h1
    obtain ⟨f1, f2, f3⟩ := fields_of_overflow r Y 1 (DateFromTime t) (by norm_num) (by norm_num)
      (by omega) (by omega) h1
    refine ⟨f1, fun h => absurd h hc, fun _ => ⟨k1, by omega, ?_, by omega⟩⟩
    rw [f2]; norm_num

/-! ## Time zones and the range of time values -/

/-- In a zone with a fixed offset, local time is UTC plus the offset. -/
theorem LocalTime_fixedOffset (zone : TimeZone) (offset : Int) (hz : fixedOffset zone offset)
    (t : Int) : LocalTime zone t = t + offset := by
  unfold LocalTime
  rw [hz t true]

/-- In a zone with a fixed offset, UTC is local time minus the offset. -/
theorem UTC_fixedOffset (zone : TimeZone) (offset : Int) (hz : fixedOffset zone offset)
    (t : Int) : UTC zone t = t - offset := by
  unfold UTC
  rw [hz t false]

/-- The zone UTC has the fixed offset zero. -/
theorem utc_fixedOffset : fixedOffset utc 0 := fun _ _ => rfl

/-- The first days of the years -271820 and 275760, between which every day is
within the range of time values, with more than a day to spare. -/
theorem DayFromYear_range : DayFromYear (-271820) = -99999744 ∧ DayFromYear 275760 = 99999744 :=
  ⟨by decide, by decide⟩

/-- A local time in a year strictly between -271821 and 275760, taken to UTC with an
offset of at most a day, is within the range of time values: `TimeClip` keeps it. -/
theorem TimeClip_of_year (x offset : Int) (hy0 : -271821 < YearFromTime x)
    (hy1 : YearFromTime x < 275760) (ho0 : -msPerDay ≤ offset) (ho1 : offset ≤ msPerDay) :
    TimeClip (x - offset) = .valid (x - offset) := by
  have h3 := YearFromDay_lower (Day x)
  have h4 := YearFromDay_upper (Day x)
  have m1 := DayFromYear_mono (show (-271820 : Int) ≤ YearFromTime x by omega)
  have m2 := DayFromYear_mono (show YearFromTime x + 1 ≤ (275760 : Int) by omega)
  obtain ⟨e1, e2⟩ := DayFromYear_range
  have hx := MakeDate_Day_TimeWithinDay x
  have b0 := TimeWithinDay_nonneg x
  have b1 := TimeWithinDay_lt x
  unfold YearFromTime at m1 m2
  rw [e1] at m1
  rw [e2] at m2
  unfold TimeClip
  rw [if_neg]
  unfold MakeDate at hx
  generalize Day x = dx at *
  generalize TimeWithinDay x = wx at *
  unfold msPerDay at *
  have hx' : dx * 86400000 + wx = x := hx
  omega

/-- The setter `setMonth` in a zone with a fixed offset. -/
theorem setMonth_fixedOffset (zone : TimeZone) (offset : Int) (hz : fixedOffset zone offset)
    (tv : Date) (m : Int) :
    setMonth zone (.valid tv) (some m) =
      TimeClip (MakeDate (MakeDay (YearFromTime (tv + offset)) m (DateFromTime (tv + offset)))
        (TimeWithinDay (tv + offset)) - offset) := by
  unfold setMonth
  simp only [LocalTime_fixedOffset zone offset hz, UTC_fixedOffset zone offset hz]

/-- The setter `setDate` in a zone with a fixed offset. -/
theorem setDate_fixedOffset (zone : TimeZone) (offset : Int) (hz : fixedOffset zone offset)
    (tv : Date) (dt : Int) :
    setDate zone (.valid tv) (some dt) =
      TimeClip (MakeDate (MakeDay (YearFromTime (tv + offset)) (MonthFromTime (tv + offset)) dt)
        (TimeWithinDay (tv + offset)) - offset) := by
  unfold setDate
  simp only [LocalTime_fixedOffset zone offset hz, UTC_fixedOffset zone offset hz]

/-- The setter `setFullYear` in a zone with a fixed offset. -/
theorem setFullYear_fixedOffset (zone : TimeZone) (offset : Int) (hz : fixedOffset zone offset)
    (tv : Date) (y : Int) :
    setFullYear zone (.valid tv) (some y) =
      TimeClip (MakeDate (MakeDay y (MonthFromTime (tv + offset)) (DateFromTime (tv + offset)))
        (TimeWithinDay (tv + offset)) - offset) := by
  unfold setFullYear
  simp only [LocalTime_fixedOffset zone offset hz, UTC_fixedOffset zone offset hz]

/-- What `addMonths` computes in a zone with a fixed offset, when the target month
lies in a year strictly between -271821 and 275760: a valid date whose local fields
are the month `months` months after that of `date`, the day of the month cut down to
the length of that month, and the time of day of `date`. -/
theorem addMonths_fixedOffset (zone : TimeZone) (offset : Int) (hz : fixedOffset zone offset)
    (ho0 : -msPerDay ≤ offset) (ho1 : offset ≤ msPerDay) (tv : Date) (k : Int)
    (hy0 : -271821 < YearFromTime (tv + offset) + (MonthFromTime (tv + offset) + k) / 12)
    (hy1 : YearFromTime (tv + offset) + (MonthFromTime (tv + offset) + k) / 12 < 275760) :
    ∃ r, addMonths zone (.valid tv) k = .valid r ∧
      YearFromTime (r + offset) =
        YearFromTime (tv + offset) + (MonthFromTime (tv + offset) + k) / 12 ∧
      MonthFromTime (r + offset) = (MonthFromTime (tv + offset) + k) % 12 ∧
      DateFromTime (r + offset) =
        min (DateFromTime (tv + offset))
          (daysInMonth (YearFromTime (tv + offset) + (MonthFromTime (tv + offset) + k) / 12)
            ((MonthFromTime (tv + offset) + k) % 12)) ∧
      TimeWithinDay (r + offset) = TimeWithinDay (tv + offset) := by
  generalize ht : tv + offset = t at *
  generalize hx1 : MakeDate (MakeDay (YearFromTime t) (MonthFromTime t + k) (DateFromTime t))
    (TimeWithinDay t) = x1
  obtain ⟨d1, w1⟩ := newDate_day (MakeDay (YearFromTime t) (MonthFromTime t + k) (DateFromTime t)) t
  rw [hx1] at d1 w1
  obtain ⟨fy, fa, fb⟩ := addMonths_local t k x1 d1
  have c1 : TimeClip (x1 - offset) = .valid (x1 - offset) :=
    TimeClip_of_year x1 offset (by rw [fy]; exact hy0) (by rw [fy]; exact hy1) ho0 ho1
  have hs : setMonth zone (.valid tv) (some (MonthFromTime t + k)) = .valid (x1 - offset) := by
    rw [setMonth_fixedOffset zone offset hz, ht, hx1, c1]
  have hg : getDate zone (.valid (x1 - offset)) = some (DateFromTime x1) := by
    unfold getDate
    simp only [LocalTime_fixedOffset zone offset hz, sub_add_cancel]
  have hstart : addMonths zone (.valid tv) k =
      if numberNe (some (DateFromTime x1)) (some (DateFromTime t)) then
        setDate zone (.valid (x1 - offset)) (some 0) else .valid (x1 - offset) := by
    unfold addMonths
    simp only [getDate, getMonth, Option.map, LocalTime_fixedOffset zone offset hz, ht, hs,
      sub_add_cancel]
  rw [hstart]
  by_cases hc : DateFromTime t ≤
      daysInMonth (YearFromTime t + (MonthFromTime t + k) / 12) ((MonthFromTime t + k) % 12)
  · obtain ⟨f2, f3⟩ := fa hc
    refine ⟨x1 - offset, ?_, ?_⟩
    · rw [if_neg]
      unfold numberNe
      simp [f3]
    · rw [sub_add_cancel]
      exact ⟨fy, f2, by rw [f3, min_eq_left hc], w1⟩
  · obtain ⟨fne, f2⟩ := fb (not_le.mp hc)
    generalize hx2 : MakeDate (MakeDay (YearFromTime x1) (MonthFromTime x1) 0)
      (TimeWithinDay x1) = x2
    obtain ⟨d2, w2⟩ := newDate_day (MakeDay (YearFromTime x1) (MonthFromTime x1) 0) x1
    rw [hx2] at d2 w2
    obtain ⟨g1, g2, g3⟩ := f2 x2 d2
    have c2 : TimeClip (x2 - offset) = .valid (x2 - offset) :=
      TimeClip_of_year x2 offset (by rw [g1]; exact hy0) (by rw [g1]; exact hy1) ho0 ho1
    refine ⟨x2 - offset, ?_, ?_⟩
    · rw [if_pos]
      · rw [setDate_fixedOffset zone offset hz, sub_add_cancel, hx2, c2]
      · unfold numberNe
        simp [fne]
    · rw [sub_add_cancel]
      exact ⟨g1, g2, by rw [g3, min_eq_right (le_of_lt (not_le.mp hc))], by rw [w2, w1]⟩

/-- What `setFullYear(getFullYear() + n)` computes in a zone with a fixed offset,
when the new year lies strictly between -271821 and 275760: a valid date in that
year, at the same time of day, with the month and the day kept, except that
29 February becomes 1 March when the new year has no such day. -/
theorem setFullYear_plus_fixedOffset (zone : TimeZone) (offset : Int)
    (hz : fixedOffset zone offset) (ho0 : -msPerDay ≤ offset) (ho1 : offset ≤ msPerDay)
    (tv : Date) (n : Int) (hy0 : -271821 < YearFromTime (tv + offset) + n)
    (hy1 : YearFromTime (tv + offset) + n < 275760) :
    ∃ r, setFullYear zone (.valid tv) ((getFullYear zone (.valid tv)).map (· + n)) = .valid r ∧
      YearFromTime (r + offset) = YearFromTime (tv + offset) + n ∧
      TimeWithinDay (r + offset) = TimeWithinDay (tv + offset) ∧
      (DateFromTime (tv + offset) ≤
          daysInMonth (YearFromTime (tv + offset) + n) (MonthFromTime (tv + offset)) →
        MonthFromTime (r + offset) = MonthFromTime (tv + offset) ∧
        DateFromTime (r + offset) = DateFromTime (tv + offset)) ∧
      (daysInMonth (YearFromTime (tv + offset) + n) (MonthFromTime (tv + offset))
          < DateFromTime (tv + offset) →
        MonthFromTime (tv + offset) = 1 ∧ DateFromTime (tv + offset) = 29 ∧
        MonthFromTime (r + offset) = 2 ∧ DateFromTime (r + offset) = 1) := by
  generalize hx : MakeDate (MakeDay (YearFromTime (tv + offset) + n)
    (MonthFromTime (tv + offset)) (DateFromTime (tv + offset)))
    (TimeWithinDay (tv + offset)) = x
  obtain ⟨d1, w1⟩ := newDate_day (MakeDay (YearFromTime (tv + offset) + n)
    (MonthFromTime (tv + offset)) (DateFromTime (tv + offset))) (tv + offset)
  rw [hx] at d1 w1
  obtain ⟨f1, f2, f3⟩ := setFullYear_local (tv + offset) (YearFromTime (tv + offset) + n) x d1
  have c1 : TimeClip (x - offset) = .valid (x - offset) :=
    TimeClip_of_year x offset (by rw [f1]; exact hy0) (by rw [f1]; exact hy1) ho0 ho1
  refine ⟨x - offset, ?_, ?_⟩
  · have hg : getFullYear zone (.valid tv) = some (YearFromTime (tv + offset)) := by
      unfold getFullYear
      simp only [LocalTime_fixedOffset zone offset hz]
    rw [hg]
    simp only [Option.map]
    rw [setFullYear_fixedOffset zone offset hz, hx, c1]
  · rw [sub_add_cancel]
    exact ⟨f1, w1, f2, f3⟩

/-! ## The date cycle calculator -/

/-- The lengths of the twelve months. -/
theorem daysInMonth_table (y : Int) :
    daysInMonth y 0 = 31 ∧ daysInMonth y 1 = 28 + leapOfYear y ∧ daysInMonth y 2 = 31 ∧
    daysInMonth y 3 = 30 ∧ daysInMonth y 4 = 31 ∧ daysInMonth y 5 = 30 ∧
    daysInMonth y 6 = 31 ∧ daysInMonth y 7 = 31 ∧ daysInMonth y 8 = 30 ∧
    daysInMonth y 9 = 31 ∧ daysInMonth y 10 = 30 ∧ daysInMonth y 11 = 31 := by
  obtain ⟨t0, t1, t2, t3, t4, t5, t6, t7, t8, t9, t10, t11, t12⟩ :=
    daysBeforeMonth_table (leapOfYear y)
  unfold daysInMonth
  norm_num
  simp only [t0, t1, t2, t3, t4, t5, t6, t7, t8, t9, t10, t11, t12]
  refine ⟨?_, ?_, ?_, ?_, ?_, ?_, ?_, ?_, ?_, ?_, ?_, ?_⟩ <;> ring

/-- The sentinel branch of `calculateDateEnd` is taken when `durationMax` is unset,
zero, negative or above `maxDuration`. -/
theorem calculateDateEnd_forever (zone : TimeZone) (dateStart : Date) (period : String)
    (duration : Int) (durationMax : Option Int) (now : Date)
    (h : durationMax = none ∨ ∃ n, durationMax = some n ∧ (n ≤ 0 ∨ 1000 < n)) :
    calculateDateEnd zone dateStart period duration durationMax now =
      some (setFullYear zone (.valid dateStart)
        ((getFullYear zone (.valid dateStart)).map (· + 1000))) := by
  unfold calculateDateEnd maxDuration
  rcases h with h | ⟨n, h, hn⟩
  · subst h; rfl
  · subst h
    simp only
    rw [if_pos]
    rcases hn with hn | hn
    · exact Or.inr (Or.inl hn)
    · exact Or.inr (Or.inr hn)

/-- C1, as stated, fails: from 29 February 2000 with `cyclesMax = 0` the result, read
in UTC, is in the year 3000 but is 1 March, so the month and the day are not kept. -/
theorem calculateDateEnd_forever_leap_day_moves :
    ∃ r, calculateDateEnd utc (civil 2000 2 29) "year" 1 (some 0) 0 = some (.valid r) ∧
      getFullYear utc (.valid r) = (getFullYear utc (.valid (civil 2000 2 29))).map (· + 1000) ∧
      getMonth utc (.valid (civil 2000 2 29)) = some 1 ∧
      getDate utc (.valid (civil 2000 2 29)) = some 29 ∧
      getMonth utc (.valid r) = some 2 ∧ getDate utc (.valid r) = some 1 ∧
      ¬ (getMonth utc (.valid r) = getMonth utc (.valid (civil 2000 2 29)) ∧
         getDate utc (.valid r) = getDate utc (.valid (civil 2000 2 29))) :=
  ⟨civil 3000 3 1, by decide, by decide, by decide, by decide, by decide, by decide, by decide⟩

/-- Beyond the range of time values the sentinel is an Invalid Date: from the largest
time value, 275760-09-13 00:00 UTC, the year 1000 later cannot be held. -/
theorem calculateDateEnd_forever_invalid_date :
    TimeClip 8640000000000000 = .valid 8640000000000000 ∧
    getFullYear utc (.valid 8640000000000000) = some 275760 ∧
    calculateDateEnd utc 8640000000000000 "year" 1 none 0 = some .invalid :=
  ⟨by decide, by decide, by decide⟩

/-- Where the zone skips the local time 1000 years on, the time of day moves: with
the clocks of New York, the start 2023-03-09 02:30 local time (07:30 UTC) gives
3023-03-09 03:30 local time, since 02:30 of that day is skipped. -/
theorem calculateDateEnd_forever_skipped_hour :
    calculateDateEnd newYorkMarch3023 (civil 2023 3 9 + 27000000) "year" 1 none 0 =
      some (.valid (civil 3023 3 9 + 27000000)) ∧
    TimeWithinDay (LocalTime newYorkMarch3023 (civil 2023 3 9 + 27000000)) = 9000000 ∧
    TimeWithinDay (LocalTime newYorkMarch3023 (civil 3023 3 9 + 27000000)) = 12600000 :=
  ⟨by decide, by decide, by decide⟩

/-- C1, amended: in a time zone with a fixed offset, when `cyclesMax` is unset, zero,
negative or above 1000 and the year 1000 after that of the start is within the range
of `Date` (strictly between -271821 and 275760), `calculateDateEnd` returns a valid
date whose year is the start year plus exactly 1000 and whose time of day is that of
the start; the month and the day of the month are kept unless the start is
29 February and the year 1000 later is not a leap year, in which case the result is
1 March of that year. -/
theorem calculateDateEnd_forever_fields (zone : TimeZone) (offset : Int)
    (hz : fixedOffset zone offset) (ho0 : -msPerDay ≤ offset) (ho1 : offset ≤ msPerDay)
    (dateStart : Date) (period : String) (duration : Int)
    (durationMax : Option Int) (now : Date)
    (h : durationMax = none ∨ ∃ n, durationMax = some n ∧ (n ≤ 0 ∨ 1000 < n))
    (hy0 : -271821 < YearFromTime (LocalTime zone dateStart) + 1000)
    (hy1 : YearFromTime (LocalTime zone dateStart) + 1000 < 275760) :
    ∃ r, calculateDateEnd zone dateStart period duration durationMax now = some (.valid r) ∧
      getFullYear zone (.valid r) = (getFullYear zone (.valid dateStart)).map (· + 1000) ∧
      TimeWithinDay (LocalTime zone r) = TimeWithinDay (LocalTime zone dateStart) ∧
      (¬ (getMonth zone (.valid dateStart) = some 1 ∧ getDate zone (.valid dateStart) = some 29 ∧
            DaysInYear (YearFromTime (LocalTime zone dateStart) + 1000) = 365) →
        getMonth zone (.valid r) = getMonth zone (.valid dateStart) ∧
        getDate zone (.valid r) = getDate zone (.valid dateStart)) ∧
      (getMonth zone (.valid dateStart) = some 1 ∧ getDate zone (.valid dateStart) = some 29 ∧
            DaysInYear (YearFromTime (LocalTime zone dateStart) + 1000) = 365 →
        getMonth zone (.valid r) = some 2 ∧ getDate zone (.valid r) = some 1) := by
  rw [LocalTime_fixedOffset zone offset hz] at hy0 hy1
  obtain ⟨r, hr, f1, f2, f3, f4⟩ :=
    setFullYear_plus_fixedOffset zone offset hz ho0 ho1 dateStart 1000 hy0 hy1
  refine ⟨r, ?_, ?_⟩
  · rw [calculateDateEnd_forever zone dateStart period duration durationMax now h, hr]
  obtain ⟨_, _, _, hd1, _⟩ := civil_of_fields (dateStart + offset)
  have hfeb := (daysInMonth_table (YearFromTime (dateStart + offset) + 1000)).2.1
  unfold getFullYear getMonth getDate
  simp only [LocalTime_fixedOffset zone offset hz, Option.map, Option.some.injEq]
  refine ⟨f1, f2, ?_, ?_⟩
  · intro hn
    by_cases hc : DateFromTime (dateStart + offset) ≤
        daysInMonth (YearFromTime (dateStart + offset) + 1000) (MonthFromTime (dateStart + offset))
    · exact f3 hc
    · exfalso
      obtain ⟨k1, k2, _, _⟩ := f4 (by omega)
      apply hn
      refine ⟨k1, k2, ?_⟩
      rw [k1, hfeb] at hc
      rcases leapOfYear_cases (YearFromTime (dateStart + offset) + 1000) with ⟨_, h2⟩ | ⟨h1, _⟩
      · exact h2
      · omega
  · rintro ⟨k1, k2, k3⟩
    have hlt : daysInMonth (YearFromTime (dateStart + offset) + 1000)
        (MonthFromTime (dateStart + offset)) < DateFromTime (dateStart + offset) := by
      rw [k1, hfeb, k2]
      rcases leapOfYear_cases (YearFromTime (dateStart + offset) + 1000) with
        ⟨h1, _⟩ | ⟨_, h2⟩ <;> omega
    obtain ⟨_, _, k4, k5⟩ := f4 hlt
    exact ⟨k4, k5⟩

/-- The amended C1 at the example of the specification, in UTC: start 2024-01-01 with
`cyclesMax = 0` gives 3024-01-01, month and day kept. -/
theorem calculateDateEnd_forever_fields_witness :
    (∃ r, calculateDateEnd utc (civil 2024 1 1) "month" 1 (some 0) 0 = some (.valid r) ∧
      getFullYear utc (.valid r) = (getFullYear utc (.valid (civil 2024 1 1))).map (· + 1000) ∧
      TimeWithinDay (LocalTime utc r) = TimeWithinDay (LocalTime utc (civil 2024 1 1)) ∧
      (¬ (getMonth utc (.valid (civil 2024 1 1)) = some 1 ∧
            getDate utc (.valid (civil 2024 1 1)) = some 29 ∧
            DaysInYear (YearFromTime (LocalTime utc (civil 2024 1 1)) + 1000) = 365) →
        getMonth utc (.valid r) = getMonth utc (.valid (civil 2024 1 1)) ∧
        getDate utc (.valid r) = getDate utc (.valid (civil 2024 1 1))) ∧
      (getMonth utc (.valid (civil 2024 1 1)) = some 1 ∧
            getDate utc (.valid (civil 2024 1 1)) = some 29 ∧
            DaysInYear (YearFromTime (LocalTime utc (civil 2024 1 1)) + 1000) = 365 →
        getMonth utc (.valid r) = some 2 ∧ getDate utc (.valid r) = some 1)) ∧
    calculateDateEnd utc (civil 2024 1 1) "month" 1 (some 0) 0 = some (.valid (civil 3024 1 1)) :=
  ⟨calculateDateEnd_forever_fields utc 0 utc_fixedOffset (by decide) (by decide)
    (civil 2024 1 1) "month" 1 (some 0) 0 (Or.inr ⟨0, rfl, Or.inl (le_refl 0)⟩)
    (by decide) (by decide), by decide⟩

/-- The loop of `calculateDateEnd`, started at counter `i` with enough fuel, applies
`calculateDateOrderNext` once for every counter value from `i` up to `durationMax`. -/
theorem calculateDateEndLoop_iterate (zone : TimeZone) (period : String)
    (duration durationMax : Int) (now : Date)
    (fuel : Nat) : ∀ (i : Int) (dateEnd : Option DateObject), (durationMax - i).toNat ≤ fuel →
    calculateDateEndLoop zone period duration durationMax now fuel i dateEnd =
      (fun d => calculateDateOrderNext zone period duration d now)^[(durationMax - i).toNat]
        dateEnd := by
  induction fuel with
  | zero =>
    intro i dateEnd h
    have h0 : (durationMax - i).toNat = 0 := by omega
    rw [h0]; rfl
  | succ fuel ih =>
    intro i dateEnd h
    unfold calculateDateEndLoop
    by_cases hi : i < durationMax
    · rw [if_pos hi, ih (i + 1) _ (by omega)]
      have h1 : (durationMax - i).toNat = (durationMax - (i + 1)).toNat + 1 := by omega
      rw [h1, Function.iterate_succ_apply]
    · rw [if_neg hi]
      have h0 : (durationMax - i).toNat = 0 := by omega
      rw [h0]; rfl

/-- C2: for `0 < cyclesMax ≤ 1000`, `calculateDateEnd(start, period, duration,
cyclesMax)` is the result of applying `calculateDateOrderNext(period, duration, ·)`
exactly `cyclesMax` times, starting from `start`, in every time zone. -/
theorem calculateDateEnd_iterate (zone : TimeZone) (dateStart : Date) (period : String)
    (duration cyclesMax : Int) (now : Date) (h0 : 0 < cyclesMax) (h1 : cyclesMax ≤ 1000) :
    calculateDateEnd zone dateStart period duration (some cyclesMax) now =
      (fun d => calculateDateOrderNext zone period duration d now)^[cyclesMax.toNat]
        (some (.valid dateStart)) := by
  unfold calculateDateEnd maxDuration
  simp only
  rw [if_neg (by omega), calculateDateEndLoop_iterate _ _ _ _ _ _ _ _ (by omega)]
  simp

/-- C2 at the example of the specification, in UTC: period month, duration 1,
3 cycles from 2024-01-31 pass through 2024-02-29 and 2024-03-29 and end on
2024-04-29. -/
theorem calculateDateEnd_iterate_witness :
    calculateDateEnd utc (civil 2024 1 31) "month" 1 (some 3) 0 =
      (fun d => calculateDateOrderNext utc "month" 1 d 0)^[(3 : Int).toNat]
        (some (.valid (civil 2024 1 31))) ∧
    calculateDateOrderNext utc "month" 1 (some (.valid (civil 2024 1 31))) 0 =
      some (.valid (civil 2024 2 29)) ∧
    calculateDateOrderNext utc "month" 1 (some (.valid (civil 2024 2 29))) 0 =
      some (.valid (civil 2024 3 29)) ∧
    calculateDateOrderNext utc "month" 1 (some (.valid (civil 2024 3 29))) 0 =
      some (.valid (civil 2024 4 29)) ∧
    (fun d => calculateDateOrderNext utc "month" 1 d 0)^[(3 : Int).toNat]
        (some (.valid (civil 2024 1 31))) = some (.valid (civil 2024 4 29)) :=
  ⟨calculateDateEnd_iterate utc (civil 2024 1 31) "month" 1 3 0 (by decide) (by decide),
    by decide, by decide, by decide, by decide⟩

/-- In the `"day"` case `calculateDateOrderNext` returns its start date unchanged,
whatever the duration and the time zone: the copy made by `addDays` is dropped. -/
theorem calculateDateOrderNext_day (zone : TimeZone) (duration : Int) (dateStart : DateObject)
    (now : Date) :
    calculateDateOrderNext zone "day" duration (some dateStart) now = some dateStart := by
  unfold calculateDateOrderNext
  simp

/-- C3 fails on the code: `calculateDateOrderNext("day", 1, 2024-01-01)` returns
2024-01-01 in every time zone, not the next day 2024-01-02 (which is what `addDays`
itself computes, here in UTC). -/
theorem calculateDateOrderNext_day_unchanged :
    (∀ zone, calculateDateOrderNext zone "day" 1 (some (.valid (civil 2024 1 1))) 0 =
      some (.valid (civil 2024 1 1))) ∧
    addDays utc (.valid (civil 2024 1 1)) 1 = .valid (civil 2024 1 2) ∧
    (∀ zone, calculateDateOrderNext zone "day" 1 (some (.valid (civil 2024 1 1))) 0 ≠
      some (.valid (civil 2024 1 2))) := by
  refine ⟨fun zone => calculateDateOrderNext_day zone 1 _ 0, by decide, fun zone => ?_⟩
  rw [calculateDateOrderNext_day zone 1 _ 0]
  decide

/-- In the `"week"` case `calculateDateOrderNext` returns `undefined`, whatever the
duration, the start date and the time zone. -/
theorem calculateDateOrderNext_week (zone : TimeZone) (duration : Int)
    (dateStart : Option DateObject) (now : Date) :
    calculateDateOrderNext zone "week" duration dateStart now = none := by
  unfold calculateDateOrderNext
  simp

/-- C4 fails on the code: `calculateDateOrderNext("week", 1, 2024-01-01)` returns
`undefined` in every time zone, not the date 2024-01-08 that `addDays` computes
(here in UTC). -/
theorem calculateDateOrderNext_week_undefined :
    (∀ zone, calculateDateOrderNext zone "week" 1 (some (.valid (civil 2024 1 1))) 0 = none) ∧
    addDays utc (.valid (civil 2024 1 1)) (1 * 7) = .valid (civil 2024 1 8) :=
  ⟨fun zone => calculateDateOrderNext_week zone 1 _ 0, by decide⟩

/-- C5, as stated, fails where the zone skips the target local time: with the clocks
of New York, one month after 2024-02-10 02:30 local time (07:30 UTC) is 2024-03-10
03:30 local time, since 02:30 of that day is skipped; the month and the day are the
expected ones, the time of day is not kept. -/
theorem calculateDateOrderNext_month_skipped_hour :
    calculateDateOrderNext newYorkMarch2024 "month" 1
      (some (.valid (civil 2024 2 10 + 27000000))) 0 =
      some (.valid (civil 2024 3 10 + 27000000)) ∧
    getMonth newYorkMarch2024 (.valid (civil 2024 2 10 + 27000000)) = some 1 ∧
    getDate newYorkMarch2024 (.valid (civil 2024 2 10 + 27000000)) = some 10 ∧
    getMonth newYorkMarch2024 (.valid (civil 2024 3 10 + 27000000)) = some 2 ∧
    getDate newYorkMarch2024 (.valid (civil 2024 3 10 + 27000000)) = some 10 ∧
    TimeWithinDay (LocalTime newYorkMarch2024 (civil 2024 2 10 + 27000000)) = 9000000 ∧
    TimeWithinDay (LocalTime newYorkMarch2024 (civil 2024 3 10 + 27000000)) = 12600000 ∧
    TimeWithinDay (LocalTime newYorkMarch2024 (civil 2024 3 10 + 27000000)) ≠
      TimeWithinDay (LocalTime newYorkMarch2024 (civil 2024 2 10 + 27000000)) :=
  ⟨by decide, by decide, by decide, by decide, by decide, by decide, by decide, by decide⟩

/-- Beyond the range of time values the month step gives an Invalid Date, not a
calendar date: one month after the largest time value, 275760-09-13 00:00 UTC. -/
theorem calculateDateOrderNext_month_invalid_date :
    TimeClip 8640000000000000 = .valid 8640000000000000 ∧
    getMonth utc (.valid 8640000000000000) = some 8 ∧
    getDate utc (.valid 8640000000000000) = some 13 ∧
    calculateDateOrderNext utc "month" 1 (some (.valid 8640000000000000)) 0 = some .invalid :=
  ⟨by decide, by decide, by decide, by decide⟩

/-- C5, amended: in a time zone with a fixed offset, when the target month lies in a
year within the range of `Date` (strictly between -271821 and 275760),
`calculateDateOrderNext("month", duration, from)` returns a valid date in the month
that is exactly `duration` months after the month of `from`, whose day of the month
is `min(d, days in that month)` for `d` the day of `from`, at the same time of day.
The fields are those of the local time, which `getFullYear`, `getMonth` and
`getDate` read. -/
theorem calculateDateOrderNext_month (zone : TimeZone) (offset : Int)
    (hz : fixedOffset zone offset) (ho0 : -msPerDay ≤ offset) (ho1 : offset ≤ msPerDay)
    (duration : Int) (dateStart now : Date)
    (hy0 : -271821 < YearFromTime (LocalTime zone dateStart)
      + (MonthFromTime (LocalTime zone dateStart) + duration) / 12)
    (hy1 : YearFromTime (LocalTime zone dateStart)
      + (MonthFromTime (LocalTime zone dateStart) + duration) / 12 < 275760) :
    ∃ r, calculateDateOrderNext zone "month" duration (some (.valid dateStart)) now =
        some (.valid r) ∧
      12 * YearFromTime (LocalTime zone r) + MonthFromTime (LocalTime zone r) =
        12 * YearFromTime (LocalTime zone dateStart) + MonthFromTime (LocalTime zone dateStart)
          + duration ∧
      0 ≤ MonthFromTime (LocalTime zone r) ∧ MonthFromTime (LocalTime zone r) < 12 ∧
      DateFromTime (LocalTime zone r) =
        min (DateFromTime (LocalTime zone dateStart))
          (daysInMonth (YearFromTime (LocalTime zone r)) (MonthFromTime (LocalTime zone r))) ∧
      1 ≤ DateFromTime (LocalTime zone r) ∧
      DateFromTime (LocalTime zone r) ≤
        daysInMonth (YearFromTime (LocalTime zone r)) (MonthFromTime (LocalTime zone r)) ∧
      TimeWithinDay (LocalTime zone r) = TimeWithinDay (LocalTime zone dateStart) ∧
      getFullYear zone (.valid r) = some (YearFromTime (LocalTime zone r)) ∧
      getMonth zone (.valid r) = some (MonthFromTime (LocalTime zone r)) ∧
      getDate zone (.valid r) = some (DateFromTime (LocalTime zone r)) := by
  rw [LocalTime_fixedOffset zone offset hz] at hy0 hy1
  obtain ⟨r, hr, f1, f2, f3, f4⟩ :=
    addMonths_fixedOffset zone offset hz ho0 ho1 dateStart duration hy0 hy1
  refine ⟨r, ?_, ?_⟩
  · unfold calculateDateOrderNext
    simp [hr]
  · obtain ⟨g1, g2, g3, g4, _⟩ := civil_of_fields (r + offset)
    have hl := LocalTime_fixedOffset zone offset hz
    refine ⟨?_, ?_, ?_, ?_, ?_, ?_, ?_, rfl, rfl, rfl⟩ <;> simp only [hl]
    · rw [f1, f2]; omega
    · exact g1
    · exact g2
    · rw [f3, f1, f2]
    · exact g3
    · exact g4
    · exact f4

/-- The amended C5 in UTC at 31 January of a leap year: one month later is
29 February. -/
theorem calculateDateOrderNext_month_witness :
    (∃ r, calculateDateOrderNext utc "month" 1 (some (.valid (civil 2024 1 31))) 0 =
        some (.valid r) ∧
      12 * YearFromTime (LocalTime utc r) + MonthFromTime (LocalTime utc r) =
        12 * YearFromTime (LocalTime utc (civil 2024 1 31))
          + MonthFromTime (LocalTime utc (civil 2024 1 31)) + 1 ∧
      0 ≤ MonthFromTime (LocalTime utc r) ∧ MonthFromTime (LocalTime utc r) < 12 ∧
      DateFromTime (LocalTime utc r) =
        min (DateFromTime (LocalTime utc (civil 2024 1 31)))
          (daysInMonth (YearFromTime (LocalTime utc r)) (MonthFromTime (LocalTime utc r))) ∧
      1 ≤ DateFromTime (LocalTime utc r) ∧
      DateFromTime (LocalTime utc r) ≤
        daysInMonth (YearFromTime (LocalTime utc r)) (MonthFromTime (LocalTime utc r)) ∧
      TimeWithinDay (LocalTime utc r) = TimeWithinDay (LocalTime utc (civil 2024 1 31)) ∧
      getFullYear utc (.valid r) = some (YearFromTime (LocalTime utc r)) ∧
      getMonth utc (.valid r) = some (MonthFromTime (LocalTime utc r)) ∧
      getDate utc (.valid r) = some (DateFromTime (LocalTime utc r))) ∧
    calculateDateOrderNext utc "month" 1 (some (.valid (civil 2024 1 31))) 0 =
      some (.valid (civil 2024 2 29)) ∧
    getMonth utc (.valid (civil 2024 2 29)) = some 1 ∧
    getDate utc (.valid (civil 2024 2 29)) = some 29 :=
  ⟨calculateDateOrderNext_month utc 0 utc_fixedOffset (by decide) (by decide) 1
    (civil 2024 1 31) 0 (by decide) (by decide), by decide, by decide, by decide⟩

/-- Month steps of `calculateDateOrderNext` in UTC: 31 January goes to 28 February in
a common year and to 29 February in a leap year. -/
theorem calculateDateOrderNext_month_examples :
    calculateDateOrderNext utc "month" 1 (some (.valid (civil 2023 1 31))) 0 =
      some (.valid (civil 2023 2 28)) ∧
    calculateDateOrderNext utc "month" 1 (some (.valid (civil 2024 1 31))) 0 =
      some (.valid (civil 2024 2 29)) ∧
    calculateDateOrderNext utc "month" 13 (some (.valid (civil 2023 12 31))) 0 =
      some (.valid (civil 2025 1 31)) :=
  ⟨by decide, by decide, by decide⟩

/-! ## The renewal run -/

theorem prepareForUpdate_status (s : Subscription) : (prepareForUpdate s).status = s.status := by
  unfold prepareForUpdate
  split
  · split <;> rfl
  · rfl

theorem prepareForUpdate_dates (s : Subscription) : (prepareForUpdate s).dates = s.dates := by
  unfold prepareForUpdate
  split
  · split <;> rfl
  · rfl

theorem prepareForUpdate_history (s : Subscription) :
    (prepareForUpdate s).history = s.history := by
  unfold prepareForUpdate
  split
  · split <;> rfl
  · rfl

/-- A record selected by the query is active, has a next order date not after
`today` and an end date not before `today`. -/
theorem dueQuery_true (today : Date) (s : Subscription) (h : dueQuery today s = true) :
    s.status = "active" ∧ today ≤ s.dates.dateEnd ∧
    ∃ d, s.dates.dateOrderNext = some (.valid d) ∧ d ≤ today := by
  unfold dueQuery at h
  simp only [Bool.and_eq_true, decide_eq_true_eq] at h
  obtain ⟨⟨h1, h2⟩, h3⟩ := h
  refine ⟨h3, h2, ?_⟩
  cases hd : s.dates.dateOrderNext with
  | none => rw [hd] at h1; simp at h1
  | some d =>
    cases d with
    | invalid => rw [hd] at h1; simp at h1
    | valid d => rw [hd] at h1; exact ⟨d, rfl, by simpa using h1⟩

/-- The branch of the callback taken when the end date is after `today`. -/
theorem onOrderResult_later (zone : TimeZone) (today : Date) (s : Subscription)
    (o : OrderResult) (now stamp : Date)
    (h : today < s.dates.dateEnd) :
    (onOrderResult zone today s o now stamp).status = s.status ∧
    (onOrderResult zone today s o now stamp).dates.dateOrderNext =
      calculateDateOrderNext zone s.period s.duration none now ∧
    (onOrderResult zone today s o now stamp).dates.dateEnd = s.dates.dateEnd := by
  unfold onOrderResult
  simp only [gt_iff_lt]
  rw [if_pos h]
  exact ⟨rfl, rfl, rfl⟩

/-- The branch of the callback taken when the end date is not after `today`. -/
theorem onOrderResult_ended (zone : TimeZone) (today : Date) (s : Subscription)
    (o : OrderResult) (now stamp : Date)
    (h : ¬ today < s.dates.dateEnd) :
    (onOrderResult zone today s o now stamp).status = "finished" ∧
    (onOrderResult zone today s o now stamp).dates = s.dates := by
  unfold onOrderResult
  simp only [gt_iff_lt]
  rw [if_neg h]
  exact ⟨rfl, rfl⟩

/-- The history written by the callback: the previous entries, then one entry with
action `prolonged` and type `automatic` that carries the order id in its own
`relatedOrder` property and has no `data` object. -/
theorem onOrderResult_history (zone : TimeZone) (today : Date) (s : Subscription)
    (o : OrderResult)
    (now stamp : Date) :
    (prepareForUpdate (onOrderResult zone today s o now stamp)).history =
      s.history ++ [{ action := "prolonged", type := "automatic", date := stamp, data := none,
                      relatedOrder := some o._id }] := by
  rw [prepareForUpdate_history]
  unfold onOrderResult
  simp only [gt_iff_lt]
  split_ifs <;> rfl

/-- C6, as stated, fails: with `today` = 2024-06-01, next order date 2024-05-30, end
date 2024-12-31 and a monthly period, the record written back has next order date
2024-07-01 (one month after the current time), not 2024-06-30 (one month after the
previous next order date). -/
theorem runSubscriptions_next_not_from_previous :
    dueQuery (civil 2024 6 1) (scenarioRecord "month" (civil 2024 12 31)) = true ∧
    civil 2024 6 1 < (scenarioRecord "month" (civil 2024 12 31)).dates.dateEnd ∧
    calculateDateOrderNext utc "month" 1 (some (.valid (civil 2024 5 30))) (civil 2024 6 1)
      = some (.valid (civil 2024 6 30)) ∧
    (prepareForUpdate (onOrderResult utc (civil 2024 6 1)
      (scenarioRecord "month" (civil 2024 12 31)) { _id := "order-1" }
      (civil 2024 6 1) (civil 2024 6 1))).dates.dateOrderNext = some (.valid (civil 2024 7 1)) ∧
    (prepareForUpdate (onOrderResult utc (civil 2024 6 1)
      (scenarioRecord "month" (civil 2024 12 31)) { _id := "order-1" }
      (civil 2024 6 1) (civil 2024 6 1))).dates.dateOrderNext ≠
      calculateDateOrderNext utc "month" 1 (some (.valid (civil 2024 5 30))) (civil 2024 6 1) :=
  ⟨by decide, by decide, by decide, by decide, by decide⟩

/-- C6, amended: for a due record with a monthly or yearly period whose order
creation succeeds and whose end date is after `today`, the record written back is
still active and its next order date is the current time `now` (read when the order
result is handled) advanced by one cycle, `calculateDateOrderNext(period, duration,
now)`; the previous next order date plays no part. -/
theorem runSubscriptions_next_from_now (zone : TimeZone) (today : Date) (s : Subscription)
    (o : OrderResult)
    (now stamp : Date) (hdue : dueQuery today s = true) (hend : today < s.dates.dateEnd)
    (hp : s.period = "month" ∨ s.period = "year") :
    (prepareForUpdate (onOrderResult zone today s o now stamp)).status = "active" ∧
    (prepareForUpdate (onOrderResult zone today s o now stamp)).dates.dateOrderNext =
      calculateDateOrderNext zone s.period s.duration (some (.valid now)) now ∧
    ∃ d, (prepareForUpdate (onOrderResult zone today s o now stamp)).dates.dateOrderNext = some d ∧
      d = (if s.period = "month" then addMonths zone (.valid now) s.duration
           else setFullYear zone (.valid now)
             ((getFullYear zone (.valid now)).map (· + s.duration))) := by
  obtain ⟨h1, h2, _⟩ := onOrderResult_later zone today s o now stamp hend
  obtain ⟨ha, _, _⟩ := dueQuery_true today s hdue
  rw [prepareForUpdate_status, prepareForUpdate_dates, h1, h2]
  refine ⟨ha, ?_, ?_⟩
  · unfold calculateDateOrderNext; rfl
  · unfold calculateDateOrderNext
    rcases hp with hp | hp <;> rw [hp] <;> simp

/-- The amended C6 at the scenario of the specification with `now = today` =
2024-06-01: the next order date becomes 2024-07-01 and the status stays active. -/
theorem runSubscriptions_next_from_now_witness :
    ((prepareForUpdate (onOrderResult utc (civil 2024 6 1)
        (scenarioRecord "month" (civil 2024 12 31)) { _id := "order-1" }
        (civil 2024 6 1) (civil 2024 6 1))).status = "active" ∧
      (prepareForUpdate (onOrderResult utc (civil 2024 6 1)
        (scenarioRecord "month" (civil 2024 12 31)) { _id := "order-1" }
        (civil 2024 6 1) (civil 2024 6 1))).dates.dateOrderNext =
        calculateDateOrderNext utc (scenarioRecord "month" (civil 2024 12 31)).period
          (scenarioRecord "month" (civil 2024 12 31)).duration
          (some (.valid (civil 2024 6 1))) (civil 2024 6 1) ∧
      ∃ d, (prepareForUpdate (onOrderResult utc (civil 2024 6 1)
        (scenarioRecord "month" (civil 2024 12 31)) { _id := "order-1" }
        (civil 2024 6 1) (civil 2024 6 1))).dates.dateOrderNext = some d ∧
        d = (if (scenarioRecord "month" (civil 2024 12 31)).period = "month"
             then addMonths utc (.valid (civil 2024 6 1))
               (scenarioRecord "month" (civil 2024 12 31)).duration
             else setFullYear utc (.valid (civil 2024 6 1))
               ((getFullYear utc (.valid (civil 2024 6 1))).map
                 (· + (scenarioRecord "month" (civil 2024 12 31)).duration)))) ∧
    addMonths utc (.valid (civil 2024 6 1)) 1 = .valid (civil 2024 7 1) :=
  ⟨runSubscriptions_next_from_now utc (civil 2024 6 1) (scenarioRecord "month" (civil 2024 12 31))
    { _id := "order-1" } (civil 2024 6 1) (civil 2024 6 1) (by decide) (by decide)
    (Or.inl rfl), by decide⟩

/-- The branches of the renewal step: with the end date after `today` the status is
kept and the next order date becomes what `calculateDateOrderNext(period, duration)`
returns; otherwise the status becomes `finished` and the dates are untouched. -/
theorem runSubscriptions_branches (zone : TimeZone) (today : Date) (s : Subscription)
    (o : OrderResult)
    (now stamp : Date) (hdue : dueQuery today s = true) :
    (today < s.dates.dateEnd →
      (prepareForUpdate (onOrderResult zone today s o now stamp)).status = "active" ∧
      (prepareForUpdate (onOrderResult zone today s o now stamp)).dates.dateOrderNext =
        calculateDateOrderNext zone s.period s.duration none now) ∧
    (¬ today < s.dates.dateEnd →
      (prepareForUpdate (onOrderResult zone today s o now stamp)).status = "finished" ∧
      (prepareForUpdate (onOrderResult zone today s o now stamp)).dates.dateOrderNext =
        s.dates.dateOrderNext) := by
  obtain ⟨ha, _, _⟩ := dueQuery_true today s hdue
  rw [prepareForUpdate_status, prepareForUpdate_dates]
  constructor
  · intro h
    obtain ⟨h1, h2, _⟩ := onOrderResult_later zone today s o now stamp h
    exact ⟨h1.trans ha, h2⟩
  · intro h
    obtain ⟨h1, h2⟩ := onOrderResult_ended zone today s o now stamp h
    exact ⟨h1, by rw [h2]⟩

/-- C7 fails on the code for a weekly record: with the end date after `today` the
status stays active but the next order date is replaced by `undefined`, not by a
date. -/
theorem runSubscriptions_week_next_undefined :
    dueQuery (civil 2024 6 1) (scenarioRecord "week" (civil 2024 12 31)) = true ∧
    civil 2024 6 1 < (scenarioRecord "week" (civil 2024 12 31)).dates.dateEnd ∧
    (prepareForUpdate (onOrderResult utc (civil 2024 6 1)
      (scenarioRecord "week" (civil 2024 12 31)) { _id := "order-1" }
      (civil 2024 6 1) (civil 2024 6 1))).status = "active" ∧
    (prepareForUpdate (onOrderResult utc (civil 2024 6 1)
      (scenarioRecord "week" (civil 2024 12 31)) { _id := "order-1" }
      (civil 2024 6 1) (civil 2024 6 1))).dates.dateOrderNext = none :=
  ⟨by decide, by decide, by decide, by decide⟩

/-- When `Promise.all` resolves, every promise resolved, and the values come in the
order of the promises. -/
theorem promiseAll_ok {ε α : Type} : ∀ (ps : List (Except ε α)) (rs : List α),
    promiseAll ps = .ok rs → List.Forall₂ (fun p r => p = .ok r) ps rs := by
  intro ps
  induction ps with
  | nil =>
    intro rs h
    rw [promiseAll] at h
    cases h
    exact List.Forall₂.nil
  | cons p ps ih =>
    intro rs h
    cases p with
    | error e => rw [promiseAll] at h; cases h
    | ok a =>
      rw [promiseAll] at h
      cases hps : promiseAll ps with
      | error e => rw [hps] at h; cases h
      | ok as =>
        rw [hps] at h
        cases h
        exact List.Forall₂.cons rfl (ih as hps)

/-- When `Promise.all` rejects, its reason is that of one of the promises. -/
theorem promiseAll_error {ε α : Type} : ∀ (ps : List (Except ε α)) (e : ε),
    promiseAll ps = .error e → .error e ∈ ps := by
  intro ps
  induction ps with
  | nil =>
    intro e h
    rw [promiseAll] at h
    cases h
  | cons p ps ih =>
    intro e h
    cases p with
    | error e' =>
      rw [promiseAll] at h
      cases h
      exact List.mem_cons_self _ _
    | ok a =>
      rw [promiseAll] at h
      cases hps : promiseAll ps with
      | error e' =>
        rw [hps] at h
        cases h
        exact List.mem_cons_of_mem _ (ih _ hps)
      | ok as => rw [hps] at h; cases h

/-- One rejected promise makes `Promise.all` reject. -/
theorem promiseAll_rejects {ε α : Type} : ∀ (ps : List (Except ε α)) (e : ε),
    .error e ∈ ps → ∃ e', promiseAll ps = .error e' := by
  intro ps e hmem
  cases h : promiseAll ps with
  | error e' => exact ⟨e', rfl⟩
  | ok rs =>
    exfalso
    have hall := promiseAll_ok ps rs h
    clear h
    induction hall with
    | nil => cases hmem
    | cons hp _ ih =>
      rcases List.mem_cons.mp hmem with h1 | h1
      · rw [hp] at h1; cases h1
      · exact ih h1

/-- The promise that `runSubscriptions` creates for one record. -/
theorem runSubscriptions_eq (zone : TimeZone) (stored : List Subscription) (today : Date)
    (ordersCreate : Order → Except String OrderResult)
    (updateById : Option String → Subscription → Except String Subscription)
    (clock : Subscription → Date × Date) :
    runSubscriptions zone stored today ordersCreate updateById clock =
      promiseAll ((adapterFind stored today).map fun s =>
        match ordersCreate s.data.order with
        | .error e => .error e
        | .ok o => updateById s._id
            (prepareForUpdate (onOrderResult zone today s o (clock s).1 (clock s).2))) := rfl

/-- C8, as stated, fails: with three due records of which only the second one's
order creation fails, the run rejects with that error and yields no aggregated
result at all. -/
theorem runSubscriptions_one_failure_rejects :
    (adapterFind batchStored (civil 2024 6 1)).length = 3 ∧
    runSubscriptions utc batchStored (civil 2024 6 1) failSecond storeUpdate
      (fun _ => (civil 2024 6 1, civil 2024 6 1)) = .error "orders.create failed" ∧
    ¬ ∃ result, runSubscriptions utc batchStored (civil 2024 6 1) failSecond storeUpdate
      (fun _ => (civil 2024 6 1, civil 2024 6 1)) = .ok result := by
  have h : runSubscriptions utc batchStored (civil 2024 6 1) failSecond storeUpdate
      (fun _ => (civil 2024 6 1, civil 2024 6 1)) = .error "orders.create failed" := by
    rfl
  refine ⟨by decide, h, ?_⟩
  rintro ⟨result, hr⟩
  rw [h] at hr
  cases hr

/-- When every order creation succeeds, the run of the batch scenario resolves with
one updated record per due record. -/
theorem runSubscriptions_batch_all_succeed :
    ∃ r1 r2 r3, runSubscriptions utc batchStored (civil 2024 6 1)
      (fun order => .ok { _id := "order-of-" ++ order.user }) storeUpdate
      (fun _ => (civil 2024 6 1, civil 2024 6 1)) = .ok [r1, r2, r3] ∧
      r1._id = some "sub-1" ∧ r2._id = some "sub-2" ∧ r3._id = some "sub-3" ∧
      r1.dates.dateOrderNext = some (.valid (civil 2024 7 1)) ∧ r1.status = "active" :=
  ⟨_, _, _, rfl, rfl, rfl, rfl, by decide, rfl⟩

/-- C8, amended: the run resolves only when the order creation and the update of
every due record succeed, and then its result has exactly one entry per due record,
in order, the updated record of each; as soon as the order creation of one due record
fails, the run as a whole rejects with the error of one of the records and yields no
aggregated result. -/
theorem runSubscriptions_all_or_nothing (zone : TimeZone) (stored : List Subscription)
    (today : Date)
    (ordersCreate : Order → Except String OrderResult)
    (updateById : Option String → Subscription → Except String Subscription)
    (clock : Subscription → Date × Date) :
    (∀ result, runSubscriptions zone stored today ordersCreate updateById clock = .ok result →
      result.length = (adapterFind stored today).length ∧
      List.Forall₂ (fun s r => ∃ o, ordersCreate s.data.order = .ok o ∧
        updateById s._id (prepareForUpdate (onOrderResult zone today s o (clock s).1 (clock s).2))
          = .ok r) (adapterFind stored today) result) ∧
    (∀ e, runSubscriptions zone stored today ordersCreate updateById clock = .error e →
      ∃ s ∈ adapterFind stored today, ordersCreate s.data.order = .error e ∨
        ∃ o, ordersCreate s.data.order = .ok o ∧
          updateById s._id (prepareForUpdate (onOrderResult zone today s o (clock s).1 (clock s).2))
            = .error e) ∧
    ((∃ s ∈ adapterFind stored today, ∃ e, ordersCreate s.data.order = .error e) →
      ∃ e, runSubscriptions zone stored today ordersCreate updateById clock = .error e) := by
  rw [runSubscriptions_eq]
  generalize adapterFind stored today = found
  refine ⟨?_, ?_, ?_⟩
  · intro result h
    have hall := promiseAll_ok _ _ h
    rw [List.forall₂_map_left_iff] at hall
    refine ⟨hall.length_eq.symm, hall.imp ?_⟩
    intro s r hsr
    cases ho : ordersCreate s.data.order with
    | error e => rw [ho] at hsr; cases hsr
    | ok o => rw [ho] at hsr; exact ⟨o, rfl, hsr⟩
  · intro e h
    have hmem := promiseAll_error _ _ h
    obtain ⟨s, hs, hse⟩ := List.mem_map.mp hmem
    refine ⟨s, hs, ?_⟩
    cases ho : ordersCreate s.data.order with
    | error e' =>
      rw [ho] at hse
      simp only [Except.error.injEq] at hse
      subst hse
      exact Or.inl rfl
    | ok o => rw [ho] at hse; exact Or.inr ⟨o, rfl, hse⟩
  · rintro ⟨s, hs, e, he⟩
    apply promiseAll_rejects _ e
    refine List.mem_map.mpr ⟨s, hs, ?_⟩
    rw [he]

/-- C9, as stated, fails: a due monthly record with end date 2024-06-15, renewed on
2024-06-01, is written back active with next order date 2024-07-01, after its end
date. -/
theorem runSubscriptions_next_after_end :
    dueQuery (civil 2024 6 1) (scenarioRecord "month" (civil 2024 6 15)) = true ∧
    ¬ ((prepareForUpdate (onOrderResult utc (civil 2024 6 1)
          (scenarioRecord "month" (civil 2024 6 15)) { _id := "order-1" }
          (civil 2024 6 1) (civil 2024 6 1))).status = "finished" ∨
       ∃ d, (prepareForUpdate (onOrderResult utc (civil 2024 6 1)
          (scenarioRecord "month" (civil 2024 6 15)) { _id := "order-1" }
          (civil 2024 6 1) (civil 2024 6 1))).dates.dateOrderNext = some (.valid d) ∧
         d ≤ (prepareForUpdate (onOrderResult utc (civil 2024 6 1)
          (scenarioRecord "month" (civil 2024 6 15)) { _id := "order-1" }
          (civil 2024 6 1) (civil 2024 6 1))).dates.dateEnd) := by
  refine ⟨by decide, ?_⟩
  have h1 : (prepareForUpdate (onOrderResult utc (civil 2024 6 1)
      (scenarioRecord "month" (civil 2024 6 15)) { _id := "order-1" }
      (civil 2024 6 1) (civil 2024 6 1))).status = "active" := by decide
  have h2 : (prepareForUpdate (onOrderResult utc (civil 2024 6 1)
      (scenarioRecord "month" (civil 2024 6 15)) { _id := "order-1" }
      (civil 2024 6 1) (civil 2024 6 1))).dates.dateOrderNext = some (.valid (civil 2024 7 1)) := by
    decide
  have h3 : (prepareForUpdate (onOrderResult utc (civil 2024 6 1)
      (scenarioRecord "month" (civil 2024 6 15)) { _id := "order-1" }
      (civil 2024 6 1) (civil 2024 6 1))).dates.dateEnd = civil 2024 6 15 := by decide
  rw [h1, h2, h3]
  rintro (h | ⟨d, hd, hle⟩)
  · revert h; decide
  · cases hd
    revert hle; decide

/-- C9, amended: the renewal step keeps the end date and writes back either a
finished record, when the end date is not after `today`, or an active record whose
end date is strictly after `today`; the new next order date is not bounded by the
end date. -/
theorem runSubscriptions_finished_or_running (zone : TimeZone) (today : Date) (s : Subscription)
    (o : OrderResult)
    (now stamp : Date) (hdue : dueQuery today s = true) :
    (prepareForUpdate (onOrderResult zone today s o now stamp)).dates.dateEnd = s.dates.dateEnd ∧
    (((prepareForUpdate (onOrderResult zone today s o now stamp)).status = "finished" ∧
        s.dates.dateEnd = today) ∨
     ((prepareForUpdate (onOrderResult zone today s o now stamp)).status = "active" ∧
        today < (prepareForUpdate (onOrderResult zone today s o now stamp)).dates.dateEnd)) := by
  obtain ⟨ha, hle, _⟩ := dueQuery_true today s hdue
  rw [prepareForUpdate_status, prepareForUpdate_dates]
  by_cases h : today < s.dates.dateEnd
  · obtain ⟨h1, _, h3⟩ := onOrderResult_later zone today s o now stamp h
    exact ⟨h3, Or.inr ⟨h1.trans ha, by rw [h3]; exact h⟩⟩
  · obtain ⟨h1, h2⟩ := onOrderResult_ended zone today s o now stamp h
    exact ⟨by rw [h2], Or.inl ⟨h1, le_antisymm (not_lt.mp h) hle⟩⟩

/-- The amended C9 at a due record whose end date is `today`: it is written back
finished. -/
theorem runSubscriptions_finished_or_running_witness :
    dueQuery (civil 2024 6 1) (scenarioRecord "month" (civil 2024 6 1)) = true ∧
    ((prepareForUpdate (onOrderResult utc (civil 2024 6 1)
        (scenarioRecord "month" (civil 2024 6 1)) { _id := "order-1" }
        (civil 2024 6 1) (civil 2024 6 2))).dates.dateEnd
        = (scenarioRecord "month" (civil 2024 6 1)).dates.dateEnd ∧
     (((prepareForUpdate (onOrderResult utc (civil 2024 6 1)
        (scenarioRecord "month" (civil 2024 6 1)) { _id := "order-1" }
        (civil 2024 6 1) (civil 2024 6 2))).status = "finished" ∧
        (scenarioRecord "month" (civil 2024 6 1)).dates.dateEnd = civil 2024 6 1) ∨
      ((prepareForUpdate (onOrderResult utc (civil 2024 6 1)
        (scenarioRecord "month" (civil 2024 6 1)) { _id := "order-1" }
        (civil 2024 6 1) (civil 2024 6 2))).status = "active" ∧
        civil 2024 6 1 < (prepareForUpdate (onOrderResult utc (civil 2024 6 1)
        (scenarioRecord "month" (civil 2024 6 1)) { _id := "order-1" }
        (civil 2024 6 1) (civil 2024 6 2))).dates.dateEnd))) :=
  ⟨by decide, runSubscriptions_finished_or_running utc (civil 2024 6 1)
    (scenarioRecord "month" (civil 2024 6 1)) { _id := "order-1" }
    (civil 2024 6 1) (civil 2024 6 2) (by decide)⟩

/-- C10 fails on the code: the entry appended for order `order-1` has action
`prolonged` and type `automatic` and follows the unchanged previous entries, but it
has no `data` object; the order id sits in a `relatedOrder` property of the entry
itself. -/
theorem runSubscriptions_history_entry_without_data :
    (prepareForUpdate (onOrderResult utc (civil 2024 6 1)
      (scenarioRecord "month" (civil 2024 12 31)) { _id := "order-1" }
      (civil 2024 6 1) (civil 2024 6 2))).history =
      (scenarioRecord "month" (civil 2024 12 31)).history ++
        [{ action := "prolonged", type := "automatic", date := civil 2024 6 2, data := none,
           relatedOrder := some "order-1" }] ∧
    (∀ e ∈ (prepareForUpdate (onOrderResult utc (civil 2024 6 1)
      (scenarioRecord "month" (civil 2024 12 31)) { _id := "order-1" }
      (civil 2024 6 1) (civil 2024 6 2))).history.getLast?,
      e.data = none ∧ e.relatedOrder = some "order-1" ∧
      (e.data.bind fun d => d.lookup "relatedOrder") ≠ some (some "order-1")) := by
  refine ⟨by decide, ?_⟩
  intro e he
  have h : (prepareForUpdate (onOrderResult utc (civil 2024 6 1)
      (scenarioRecord "month" (civil 2024 12 31)) { _id := "order-1" }
      (civil 2024 6 1) (civil 2024 6 2))).history.getLast? =
      some { action := "prolonged", type := "automatic", date := civil 2024 6 2, data := none,
             relatedOrder := some "order-1" } := by decide
  rw [h] at he
  cases he
  exact ⟨rfl, rfl, by decide⟩

/-! ## The actions `suspend` and `reactivate` -/

/-- What the test of `history.some(..)` accepts: a record with action `paid` whose
`data` holds a non-empty `id`. -/
theorem paidAgreementId_eq_some_iff (record : HistoryEvent) (id : String) :
    paidAgreementId record = some id ↔
      record.action = "paid" ∧ id ≠ "" ∧
      ∃ data, record.data = some data ∧ data.lookup "id" = some (some id) := by
  unfold paidAgreementId
  constructor
  · intro h
    split_ifs at h with ha
    cases hd : record.data with
    | none => rw [hd] at h; cases h
    | some data =>
      rw [hd] at h
      simp only at h
      cases hl : data.lookup "id" with
      | none => rw [hl] at h; cases h
      | some v =>
        cases v with
        | none => rw [hl] at h; cases h
        | some i =>
          rw [hl] at h
          simp only at h
          split_ifs at h with hi
          cases h
          exact ⟨ha, hi, data, rfl, hl⟩
  · rintro ⟨ha, hi, data, hd, hl⟩
    rw [if_pos ha, hd]
    simp only
    rw [hl]
    simp only
    rw [if_pos hi]

/-- The search of `history.some(..)` over two lists in a row: the second list is
searched only when the first one has no match. -/
theorem historySome_append (pre post : List HistoryEvent) :
    historySome (pre ++ post) =
      match historySome pre with
      | some id => some id
      | none => historySome post := by
  induction pre with
  | nil => rfl
  | cons record rest ih =>
    rw [List.cons_append, historySome, historySome]
    cases paidAgreementId record with
    | some id => rfl
    | none => exact ih

/-- A list without a match gives `null`. -/
theorem historySome_none (pre : List HistoryEvent)
    (h : ∀ record ∈ pre, paidAgreementId record = none) : historySome pre = none := by
  induction pre with
  | nil => rfl
  | cons record rest ih =>
    rw [historySome, h record (List.mem_cons_self _ _)]
    exact ih fun r hr => h r (List.mem_cons_of_mem _ hr)

/-- The search returns the `data.id` of the first record that passes the test. -/
theorem historySome_first (pre post : List HistoryEvent) (record : HistoryEvent) (id : String)
    (hpre : ∀ r ∈ pre, paidAgreementId r = none) (hrecord : paidAgreementId record = some id) :
    historySome (pre ++ record :: post) = some id := by
  rw [historySome_append, historySome_none pre hpre, historySome, hrecord]

/-- The request entry that `suspend` or `reactivate` has just pushed does not pass
the test, so the agreement id is looked up in the history found. -/
theorem agreementIdOf_request (history : List HistoryEvent) (status : String)
    (data : Option (List (String × Option String))) (now : Date)
    (hs : status ≠ "" ∧ status ≠ "paid") :
    agreementIdOf (some (history ++ [newHistoryRecord status "user" data now])) =
      historySome history := by
  have hreq : paidAgreementId (newHistoryRecord status "user" data now) = none := by
    unfold paidAgreementId newHistoryRecord
    simp only
    rw [if_pos hs.1, if_neg hs.2]
  unfold agreementIdOf
  simp only [List.length_append, List.length_singleton]
  rw [if_pos (by omega), historySome_append]
  cases historySome history with
  | some id => rfl
  | none => rw [historySome, hreq]; rfl

/-- On an array, which is what `subscriptions.find` resolves to, the callback of
`suspend` throws before any call: the action rejects with a `TypeError`, whatever
the documents found, the services and the clock. -/
theorem suspend_on_array (found : List Entity) (agreementService : String → Except String String)
    (saveService : Entity → Option Entity) (clock : ActionClock) :
    suspend (some (.documents found)) agreementService saveService clock =
      { found := none, calls := [], outcome := .rejected "TypeError" } := rfl

/-- Without `updateObject` in the parameters, the handler of `reactivate` throws
before any lookup: the action rejects with a `TypeError`, whatever is stored. -/
theorem reactivate_without_updateObject (subscriptionId : String)
    (findById : Option String → Option Entity) (agreementService : String → Except String String)
    (saveService : Entity → Option Entity) (clock : ActionClock) :
    reactivate { subscriptionId := subscriptionId, updateObject := none } findById
      agreementService saveService clock =
      { found := none, calls := [], outcome := .rejected "TypeError" } := rfl

/-- The callback of `suspend` never reads the status it overwrites: on a single
document, which is not what `subscriptions.find` resolves to, its run would be the
same whatever the status. -/
theorem suspend_document_ignores_status (found : Entity) (status : String)
    (agreementService : String → Except String String)
    (saveService : Entity → Option Entity) (clock : ActionClock) :
    suspend (some (.document { found with status := status })) agreementService saveService
      clock = suspend (some (.document found)) agreementService saveService clock := rfl

/-- The success branch of the callback of `suspend` does not set the status
`suspended`: on a single document, which is not what `subscriptions.find` resolves
to, the entity handed to `subscriptions.save` would have no `_id`, the status
`suspend request` set on entry, and a history that ends with the `suspend request`
entry and an entry with action `suspended`. -/
theorem suspend_document_saved_entity (found : Entity) (dates : EntityDates)
    (history : List HistoryEvent) (agreementService : String → Except String String)
    (saveService : Entity → Option Entity) (clock : ActionClock) (id agreementResult : String)
    (hd : found.dates = some dates) (hh : found.history = some history)
    (hid : historySome history = some id) (hok : agreementService id = .ok agreementResult) :
    ∃ entity,
      (suspend (some (.document found)) agreementService saveService clock).calls =
        [.paypalSuspendBillingAgreement id, .subscriptionsSave entity] ∧
      entity.status = "suspend request" ∧ entity._id = none ∧
      entity.history = some (history ++
        [newHistoryRecord "suspend request" "user" (some [("relatedOrder", none)]) clock.request,
         newHistoryRecord "suspended" "user" (some [("relatedOrder", none)]) clock.last]) := by
  have hreq := agreementIdOf_request history "suspend request"
    (some [("relatedOrder", none)]) clock.request (by decide)
  refine ⟨{ found with
      _id := none, status := "suspend request",
      dates := some { dates with dateStopped := some (.date clock.stopped) },
      history := some (history ++
        [newHistoryRecord "suspend request" "user" (some [("relatedOrder", none)])
          clock.request] ++
        [newHistoryRecord "suspended" "user" (some [("relatedOrder", none)]) clock.last]) },
    ?_, rfl, rfl, ?_⟩
  · unfold suspend
    simp only [hd, hh, hreq, hid, hok]
    cases saveService _ <;> rfl
  · simp

/-- C11 fails on the code: for a stored subscription with status `suspended`, not
`active`, `subscriptions.find` resolves to an array and the callback of `suspend`
throws at `found.dates.dateStopped`: the action rejects with a `TypeError` instead of
returning a failure result.  No call is made, but for no reason of status: an active
subscription, paid under an agreement, is refused in the same way. -/
theorem suspend_throws_on_found_array :
    (paidTwice "suspended").status ≠ "active" ∧
    suspend (some (.documents [paidTwice "suspended"])) agreementOk saveOk juneClock =
      { found := none, calls := [], outcome := .rejected "TypeError" } ∧
    (∀ result,
      (suspend (some (.documents [paidTwice "suspended"])) agreementOk saveOk juneClock).outcome
        ≠ .resolved result) ∧
    (paidTwice "active").status = "active" ∧
    suspend (some (.documents [paidTwice "active"])) agreementOk saveOk juneClock =
      suspend (some (.documents [paidTwice "suspended"])) agreementOk saveOk juneClock :=
  ⟨by decide, rfl, fun _ h => Settled.noConfusion h, rfl, rfl⟩

/-- C12 fails on the code: for an active subscription paid under the agreement
`I-FIRST`, whose suspension the billing-agreement service would accept,
`subscriptions.find` resolves to an array and the callback of `suspend` throws before
the call to that service: no suspension call is made and no entity is handed to
`subscriptions.save`, with status `suspended` or any other. -/
theorem suspend_makes_no_call :
    agreementOk "I-FIRST" = .ok "done I-FIRST" ∧
    historySome [paidEvent "I-FIRST" (civil 2024 4 30), paidEvent "I-LAST" (civil 2024 5 30)] =
      some "I-FIRST" ∧
    (suspend (some (.documents [paidTwice "active"])) agreementOk saveOk juneClock).calls = [] ∧
    (∀ id, ServiceCall.paypalSuspendBillingAgreement id ∉
      (suspend (some (.documents [paidTwice "active"])) agreementOk saveOk juneClock).calls) ∧
    (∀ entity, ServiceCall.subscriptionsSave entity ∉
      (suspend (some (.documents [paidTwice "active"])) agreementOk saveOk juneClock).calls) ∧
    (suspend (some (.documents [paidTwice "active"])) agreementOk saveOk juneClock).outcome =
      .rejected "TypeError" := by
  refine ⟨rfl, by decide, rfl, ?_, ?_, rfl⟩
  · intro id h
    cases h
  · intro entity h
    cases h

/-- C13, as stated, fails: for a subscription paid under `I-FIRST` and later under
`I-LAST`, looked up by `reactivate` through `updateObject.id`, the identifier passed
to the billing-agreement service is `I-FIRST`, that of the first paid entry, not
that of the last one. -/
theorem agreement_id_not_of_last_paid_event :
    (paidTwice "suspended").history.bind List.getLast? =
      some (paidEvent "I-LAST" (civil 2024 5 30)) ∧
    (reactivate { subscriptionId := "sub-1", updateObject := some { id := some "sub-1" } }
      (findSub1 (paidTwice "suspended")) agreementOk saveOk juneClock).calls.head? =
      some (.paypalReactivateBillingAgreement "I-FIRST") ∧
    ServiceCall.paypalReactivateBillingAgreement "I-LAST" ∉
      (reactivate { subscriptionId := "sub-1", updateObject := some { id := some "sub-1" } }
        (findSub1 (paidTwice "suspended")) agreementOk saveOk juneClock).calls :=
  ⟨by decide, by decide, by decide⟩

/-- C13, amended: when `reactivate` is called with an `updateObject` whose `id`
the store resolves to a record with `dates` and a history that holds a `paid` entry
with a `data.id`, the first call of the handler is to the billing-agreement service,
with the `data.id` of the first such entry of the history, and no other identifier
is passed to that service. -/
theorem agreement_id_of_first_paid_event (params : ReactivateParams)
    (updateObject : UpdateObject) (findById : Option String → Option Entity)
    (found : Entity) (dates : EntityDates)
    (pre post : List HistoryEvent) (record : HistoryEvent) (id : String)
    (agreementService : String → Except String String)
    (saveService : Entity → Option Entity) (clock : ActionClock)
    (hu : params.updateObject = some updateObject)
    (hf : findById updateObject.id = some found)
    (hd : found.dates = some dates) (hh : found.history = some (pre ++ record :: post))
    (hpre : ∀ r ∈ pre, paidAgreementId r = none)
    (hrecord : record.action = "paid" ∧ id ≠ "" ∧
      ∃ data, record.data = some data ∧ data.lookup "id" = some (some id)) :
    (reactivate params findById agreementService saveService clock).calls.head? =
      some (.paypalReactivateBillingAgreement id) ∧
    ∀ other, ServiceCall.paypalReactivateBillingAgreement other ∈
      (reactivate params findById agreementService saveService clock).calls → other = id := by
  have hid : historySome (pre ++ record :: post) = some id :=
    historySome_first pre post record id hpre ((paidAgreementId_eq_some_iff record id).mpr hrecord)
  have hr := agreementIdOf_request (pre ++ record :: post) "reactivate request"
    (some [("relatedOrder", none)]) clock.request (by decide)
  unfold reactivate
  simp only [hu, hf, hd, hh, hr, hid]
  cases agreementService id with
  | error e => simp
  | ok r =>
    simp only
    cases saveService _ <;> simp

/-- The amended C13 at a record paid under `I-FIRST` and later under `I-LAST`. -/
theorem agreement_id_of_first_paid_event_witness :
    (reactivate { subscriptionId := "sub-1", updateObject := some { id := some "sub-1" } }
      (findSub1 (paidTwice "suspended")) agreementOk saveOk juneClock).calls.head? =
      some (.paypalReactivateBillingAgreement "I-FIRST") ∧
    ∀ other, ServiceCall.paypalReactivateBillingAgreement other ∈
      (reactivate { subscriptionId := "sub-1", updateObject := some { id := some "sub-1" } }
        (findSub1 (paidTwice "suspended")) agreementOk saveOk juneClock).calls →
      other = "I-FIRST" :=
  agreement_id_of_first_paid_event
    { subscriptionId := "sub-1", updateObject := some { id := some "sub-1" } }
    { id := some "sub-1" } (findSub1 (paidTwice "suspended")) (paidTwice "suspended")
    { emptyDates with dateStart := some (.date (civil 2024 4 30)) }
    [] [paidEvent "I-LAST" (civil 2024 5 30)] (paidEvent "I-FIRST" (civil 2024 4 30)) "I-FIRST"
    agreementOk saveOk juneClock rfl rfl rfl rfl (by simp)
    ⟨rfl, by decide, [("id", some "I-FIRST")], rfl, by decide⟩

/-! ## The action `save` -/

/-- C14, as stated, fails on the insert path: an entity with `id` and `_id` that is
not in the store is handed to `insert` with both fields. -/
theorem save_insert_keeps_identifiers :
    ∃ entity, save entityWithIds (fun _ => none) (fun _ => true) (some [])
        (fun _ => civil 2024 1 1) (civil 2024 6 1) = some (.insert entity) ∧
      entity.id = some "sub-9" ∧ entity._id = some "sub-9" :=
  ⟨_, rfl, rfl, rfl⟩

/-- C14, amended: for every entity for which validation passes, on the update path
the `$set` body handed to `updateById` has neither an `id` nor an `_id` field, and
the identifier is passed as the first argument; on the insert path the entity is
handed to `insert` with the `id` and `_id` fields it came with. -/
theorem save_identifier_fields (entity : Entity) (findById : Option String → Option Entity)
    (validateEntity : Entity → Bool) (similar : List Entity) (parse : String → Date)
    (now : Date) (hvalid : validateEntity entity = true)
    (hconverted : validateEntity
      { entity with dates := entity.dates.map (convertDates parse) } = true) :
    (∀ found, findById entity.id = some found →
      ∃ set, save entity findById validateEntity (some similar) parse now =
          some (.updateById entity.id set) ∧
        set.id = none ∧ set._id = none) ∧
    (findById entity.id = none →
      ∃ inserted, save entity findById validateEntity (some similar) parse now =
          some (.insert inserted) ∧
        inserted.id = entity.id ∧ inserted._id = entity._id) := by
  constructor
  · intro found hfound
    unfold save
    simp only [hfound, hconverted, if_true]
    exact ⟨_, rfl, rfl, rfl⟩
  · intro hnone
    unfold save
    simp only [hnone, hvalid, if_true]
    exact ⟨_, rfl, rfl, rfl⟩

/-- The amended C14 at an entity with `id` and `_id` that is found in the store: the
`$set` body has lost both fields. -/
theorem save_identifier_fields_witness :
    ((∀ found, (fun _ => some entityWithIds : Option String → Option Entity) entityWithIds.id
        = some found →
      ∃ set, save entityWithIds (fun _ => some entityWithIds) (fun _ => true) (some [])
          (fun _ => civil 2024 1 1) (civil 2024 6 1) = some (.updateById entityWithIds.id set) ∧
        set.id = none ∧ set._id = none) ∧
     ((fun _ => some entityWithIds : Option String → Option Entity) entityWithIds.id = none →
      ∃ inserted, save entityWithIds (fun _ => some entityWithIds) (fun _ => true) (some [])
          (fun _ => civil 2024 1 1) (civil 2024 6 1) = some (.insert inserted) ∧
        inserted.id = entityWithIds.id ∧ inserted._id = entityWithIds._id)) ∧
    ∃ set, save entityWithIds (fun _ => some entityWithIds) (fun _ => true) (some [])
        (fun _ => civil 2024 1 1) (civil 2024 6 1) = some (.updateById (some "sub-9") set) ∧
      set.id = none ∧ set._id = none :=
  ⟨save_identifier_fields entityWithIds (fun _ => some entityWithIds) (fun _ => true) []
    (fun _ => civil 2024 1 1) (civil 2024 6 1) rfl rfl, _, rfl, rfl, rfl⟩

/-! ## The action `listSubscriptions` -/

/-- After `query[key] = value`, the property `key` holds `value`. -/
theorem lookup_setProperty (query : Query) (key value : String) :
    (setProperty query key value).lookup key = some value := by
  induction query with
  | nil => simp [setProperty, List.lookup]
  | cons kv rest ih =>
    obtain ⟨k, v⟩ := kv
    unfold setProperty
    by_cases h : k = key
    · rw [if_pos h]; simp [List.lookup]
    · rw [if_neg h]
      have h' : (key == k) = false := by
        rw [beq_eq_false_iff_ne]; exact fun e => h e.symm
      simp only [List.lookup, h']
      exact ih

/-- The assignment `query[key] = value` leaves the other properties as they are. -/
theorem lookup_setProperty_other (query : Query) (key value other : String) (h : other ≠ key) :
    (setProperty query key value).lookup other = query.lookup other := by
  induction query with
  | nil =>
    have h' : (other == key) = false := by rw [beq_eq_false_iff_ne]; exact h
    simp [setProperty, List.lookup, h']
  | cons kv rest ih =>
    obtain ⟨k, v⟩ := kv
    unfold setProperty
    by_cases hk : k = key
    · rw [if_pos hk]
      subst hk
      have h' : (other == k) = false := by rw [beq_eq_false_iff_ne]; exact h
      simp only [List.lookup, h']
    · rw [if_neg hk]
      cases hb : (other == k) with
      | true => simp only [List.lookup, hb]
      | false => simp only [List.lookup, hb]; exact ih

/-- C15: for every caller with a user id, the filter passed to `subscriptions.find`
has `query.userId` equal to the caller's own id whenever the caller is not of type
`admin`, whatever query, limit, offset, sort and `fullData` flag are supplied; a
filter whose `query.userId` is not the caller's id is only given to a caller of type
`admin` with `fullData = true`. -/
theorem listSubscriptions_owner_filter (user : User) (params : ListParams)
    (fixStringToId : String → String) (hauth : user._id ≠ "") :
    ∃ filter, listSubscriptionsFilter (some user) params fixStringToId = some filter ∧
      (user.type ≠ "admin" → filter.query.lookup "userId" = some user._id) ∧
      (filter.query.lookup "userId" ≠ some user._id →
        user.type = "admin" ∧ params.fullData = some true) := by
  unfold listSubscriptionsFilter
  simp only [if_pos hauth]
  generalize hq : (match params.query with
    | some q => q
    | none => ([] : Query)) = query
  by_cases hadm : user.type = "admin" ∧ params.fullData = some true
  · rw [if_pos hadm]
    split
    · split_ifs <;> exact ⟨_, rfl, fun h => absurd hadm.1 h, fun _ => hadm⟩
    · exact ⟨_, rfl, fun h => absurd hadm.1 h, fun _ => hadm⟩
  · rw [if_neg hadm]
    have hown := lookup_setProperty query "userId" user._id
    split
    · rename_i id _
      have hfix : (setProperty (setProperty query "userId" user._id) "_id"
          (fixStringToId id)).lookup "userId" = some user._id := by
        rw [lookup_setProperty_other _ _ _ _ (by decide)]
        exact hown
      split_ifs <;> first
        | exact ⟨_, rfl, fun _ => hown, fun h => absurd hown h⟩
        | exact ⟨_, rfl, fun _ => hfix, fun h => absurd hfix h⟩
    · exact ⟨_, rfl, fun _ => hown, fun h => absurd hown h⟩

/-- C15 at a caller of type `user` who asks for `fullData` and for the
subscriptions of another user: the filter is the caller's own. -/
theorem listSubscriptions_owner_filter_witness :
    (∃ filter, listSubscriptionsFilter (some { _id := "user-1", type := "user" })
        { query := some [("userId", "user-2"), ("status", "active")], limit := some 50,
          offset := none, sort := none, fullData := some true } id = some filter ∧
      ((({ _id := "user-1", type := "user" } : User).type ≠ "admin") →
        filter.query.lookup "userId" = some ({ _id := "user-1", type := "user" } : User)._id) ∧
      (filter.query.lookup "userId" ≠ some ({ _id := "user-1", type := "user" } : User)._id →
        ({ _id := "user-1", type := "user" } : User).type = "admin" ∧
        ({ query := some [("userId", "user-2"), ("status", "active")], limit := some 50,
           offset := none, sort := none, fullData := some true } : ListParams).fullData
          = some true)) ∧
    listSubscriptionsFilter (some { _id := "user-1", type := "user" })
        { query := some [("userId", "user-2"), ("status", "active")], limit := some 50,
          offset := none, sort := none, fullData := some true } id =
      some { query := [("userId", "user-1"), ("status", "active")], limit := 20,
             offset := none, sort := "-dates.dateCreated" } :=
  ⟨listSubscriptions_owner_filter { _id := "user-1", type := "user" }
    { query := some [("userId", "user-2"), ("status", "active")], limit := some 50,
      offset := none, sort := none, fullData := some true } id (by decide), by decide⟩

/-- A caller of type `admin` who asks for `fullData` gets the supplied query as it is,
and without `fullData` the caller's own id. -/
theorem listSubscriptions_admin_examples :
    listSubscriptionsFilter (some { _id := "admin-1", type := "admin" })
        { query := some [("userId", "user-2")], limit := none, offset := none, sort := none,
          fullData := some true } id =
      some { query := [("userId", "user-2")], limit := 20, offset := none,
             sort := "-dates.dateCreated" } ∧
    listSubscriptionsFilter (some { _id := "admin-1", type := "admin" })
        { query := some [("userId", "user-2")], limit := none, offset := none, sort := none,
          fullData := none } id =
      some { query := [("userId", "admin-1")], limit := 20, offset := none,
             sort := "-dates.dateCreated" } ∧
    listSubscriptionsFilter none
        { query := none, limit := none, offset := none, sort := none, fullData := none } id
      = none :=
  ⟨by decide, by decide, by decide⟩

/-! ## The method `prepareOrderForSubscription` -/

/-- The object returned by `prepareOrderForSubscription`: status `cart`, no `_id`,
no external ids, no invoice, the given item as its only item, and the nested objects
of the order itself. -/
theorem prepareOrderForSubscription_template (heap : Heap) (order : OrderObject) (item : Item)
    (now : Date) :
    (prepareOrderForSubscription heap order (some item) now).2 =
      { order with _id := none, externalId := none, externalCode := none, status := "cart",
                   invoice := none, items := [item] } := rfl

/-- After `prepareOrderForSubscription` the object `prices` of the order itself,
which the returned object shares, has its seven totals at 0, and the object `dates`
of the order has lost `datePaid` and `emailSent`. -/
theorem prepareOrderForSubscription_writes_through (heap : Heap) (order : OrderObject)
    (item : Option Item) (now : Date) :
    (prepareOrderForSubscription heap order item now).1.prices order.prices =
      { priceTotal := 0, priceTotalNoTax := 0, priceItems := 0, priceItemsNoTax := 0,
        priceTaxTotal := 0, priceDelivery := 0, pricePayment := 0 } ∧
    ((prepareOrderForSubscription heap order item now).1.dates order.dates).datePaid = none ∧
    ((prepareOrderForSubscription heap order item now).1.dates order.dates).emailSent = none ∧
    ((prepareOrderForSubscription heap order item now).1.data order.data).paymentData =
      { (heap.data order.data).paymentData with
        paymentRequestId := none, lastStatus := none, lastDate := none,
        paidAmountTotal := none, lastResponseResult := [] } := by
  unfold prepareOrderForSubscription objectAssign
  refine ⟨?_, ?_, ?_, ?_⟩
  · cases item <;> (simp only; split <;> simp)
  · cases item <;> (simp only; split <;> simp)
  · cases item <;> (simp only; split <;> simp)
  · cases item <;> (simp only; split <;> simp)

/-- C16 fails on the code: after `prepareOrderForSubscription(order, item)` on a paid
order the returned template is as claimed (status `cart`, seven totals at 0, no
`_id`, no invoice, the given item only), but the originating order is changed: its
`prices` totals are 0, its `dates.datePaid` and `dates.emailSent` are `null`, its
`data.paymentData` fields are gone and its `data.subscription` is set. -/
theorem prepareOrderForSubscription_changes_order :
    (paidHeap.prices paidOrder.prices).priceTotal = 120 ∧
    ((prepareOrderForSubscription paidHeap paidOrder
      (some { _id := "item-1", name := "magazine", type := "subscription", price := 100 })
      (civil 2024 6 1)).1.prices paidOrder.prices).priceTotal = 0 ∧
    (paidHeap.dates paidOrder.dates).datePaid = some (civil 2024 4 30) ∧
    ((prepareOrderForSubscription paidHeap paidOrder
      (some { _id := "item-1", name := "magazine", type := "subscription", price := 100 })
      (civil 2024 6 1)).1.dates paidOrder.dates).datePaid = none ∧
    ((prepareOrderForSubscription paidHeap paidOrder
      (some { _id := "item-1", name := "magazine", type := "subscription", price := 100 })
      (civil 2024 6 1)).1.dates paidOrder.dates).emailSent = none ∧
    (paidHeap.data paidOrder.data).paymentData.paidAmountTotal = some 120 ∧
    ((prepareOrderForSubscription paidHeap paidOrder
      (some { _id := "item-1", name := "magazine", type := "subscription", price := 100 })
      (civil 2024 6 1)).1.data paidOrder.data).paymentData.paidAmountTotal = none ∧
    (paidHeap.data paidOrder.data).subscription = none ∧
    ((prepareOrderForSubscription paidHeap paidOrder
      (some { _id := "item-1", name := "magazine", type := "subscription", price := 100 })
      (civil 2024 6 1)).1.data paidOrder.data).subscription =
      some { created := civil 2024 6 1, ids := [] } ∧
    (prepareOrderForSubscription paidHeap paidOrder
      (some { _id := "item-1", name := "magazine", type := "subscription", price := 100 })
      (civil 2024 6 1)).2 =
      { paidOrder with
        _id := none, externalId := none, externalCode := none, status := "cart",
        invoice := none,
        items := [{ _id := "item-1", name := "magazine", type := "subscription",
                    price := 100 }] } ∧
    (prepareOrderForSubscription paidHeap paidOrder
      (some { _id := "item-1", name := "magazine", type := "subscription", price := 100 })
      (civil 2024 6 1)).1.prices
      (prepareOrderForSubscription paidHeap paidOrder
        (some { _id := "item-1", name := "magazine", type := "subscription", price := 100 })
        (civil 2024 6 1)).2.prices =
      { priceTotal := 0, priceTotalNoTax := 0, priceItems := 0, priceItemsNoTax := 0,
        priceTaxTotal := 0, priceDelivery := 0, pricePayment := 0 } :=
  ⟨by decide, by decide, by decide, by decide, by decide, by decide, by decide, by decide,
    by decide, by decide, by decide⟩

end StretchShop
